import Mathlib

/-!
# Shader build pipeline and render loop of the two triangle programs

A shallow embedding of `src/openGL/helloTriangle.cpp` and `src/openGL/main.cpp`.

The programs are straight-line sequences of OpenGL / GLFW calls.  The embedding
passes an explicit `State` through every function:

* `State.trace` is the list of library calls issued so far, in order, each
  recorded together with the value the library handed back;
* `State.cout` is the list of texts written to `std::cout`, one entry per
  output statement;
* `State.mem` holds the `unsigned int` variables that are reached through
  pointers (`&vertexShader`, `&fragShader`, `&shaderProgram`, `&VAO`, `&VBO`);
* `State.shouldClose` is the close flag of the GLFW window.

The graphics library and the window system are external.  They are a
`Backend`: every value a library call returns is an arbitrary function of the
calls made before it, so a statement proved for all `Backend`s holds whatever
the driver answers.
-/

set_option linter.constructorNameAsVariable false

namespace OpenGL

/-- The two shader stages requested from `glCreateShader`. -/
inductive ShaderKind
  | GL_VERTEX_SHADER
  | GL_FRAGMENT_SHADER
  deriving DecidableEq, Repr

/-- Primitive modes of `glDrawArrays`. -/
inductive DrawMode
  | GL_POINTS
  | GL_LINES
  | GL_TRIANGLES
  deriving DecidableEq, Repr

/-- Key states reported by `glfwGetKey`. -/
inductive KeyAction
  | GLFW_RELEASE
  | GLFW_PRESS
  deriving DecidableEq, Repr

/-- Addresses of `unsigned int` objects: the five globals of either file, or any
other object (a local, say). -/
inductive Loc
  | VAO
  | VBO
  | vertexShader
  | fragShader
  | shaderProgram
  | other (addr : Nat)
  deriving DecidableEq, Repr

/-- Values of type `char *` as far as `helloTriangle.cpp` compares them: the
address of the global array `vertexType`, the address of the global array
`fragType`, or any other address, with the text stored there. -/
inductive CharPtr
  | vertexType
  | fragType
  | other (addr : Nat) (content : String)
  deriving DecidableEq, Repr

/-- The text a `char *` points to (`vertexType` and `fragType` with their
initialisers, lines 28-29 of `helloTriangle.cpp`). -/
def CharPtr.content : CharPtr → String
  | .vertexType => "vertex"
  | .fragType => "fragment"
  | .other _ c => c

/-- One library call, with its arguments and, where it has one, its result.
Enumerated arguments that are the same at every call site are left out:
`glGetShaderiv` is always asked for `GL_COMPILE_STATUS`, `glGetProgramiv` for
`GL_LINK_STATUS`, buffers are always bound and filled on `GL_ARRAY_BUFFER` with
`GL_STATIC_DRAW`, `glClear` always gets `GL_COLOR_BUFFER_BIT`, `glfwGetKey`
always asks for `GLFW_KEY_ESCAPE`, and `glVertexAttribPointer` always gets
`GL_FLOAT`, `GL_FALSE`.  The colour of `glClearColor` is written in tenths. -/
inductive Call
  | glCreateShader (kind : ShaderKind) (ret : Nat)
  | glShaderSource (shader : Nat) (count : Nat) (source : String)
  | glCompileShader (shader : Nat)
  | glGetShaderiv (shader : Nat) (success : Int)
  | glGetShaderInfoLog (shader : Nat) (bufSize : Nat) (infoLog : String)
  | glCreateProgram (ret : Nat)
  | glAttachShader (program : Nat) (shader : Nat)
  | glLinkProgram (program : Nat)
  | glGetProgramiv (program : Nat) (success : Int)
  | glGetProgramInfoLog (program : Nat) (bufSize : Nat) (infoLog : String)
  | glUseProgram (program : Nat)
  | glDeleteShader (shader : Nat)
  | glGenBuffers (n : Nat) (ret : Nat)
  | glBindBuffer (buffer : Nat)
  | glBufferData (size : Nat)
  | glGenVertexArrays (n : Nat) (ret : Nat)
  | glBindVertexArray (array : Nat)
  | glVertexAttribPointer (index : Nat) (size : Nat) (stride : Nat) (pointer : Nat)
  | glEnableVertexAttribArray (index : Nat)
  | glClearColor (red : Nat) (green : Nat) (blue : Nat) (alpha : Nat)
  | glClear
  | glDrawArrays (mode : DrawMode) (first : Nat) (count : Nat)
  | glViewport (x : Int) (y : Int) (width : Int) (height : Int)
  | glfwWindowShouldClose (ret : Bool)
  | glfwGetKey (ret : KeyAction)
  | glfwSetWindowShouldClose (value : Bool)
  | glfwSwapBuffers
  | glfwPollEvents
  | glfwTerminate
  deriving DecidableEq, Repr

/-- What the window system delivers during one `glfwPollEvents`: whether the
user asked to close the window, and the framebuffer sizes of the resize events
(each one runs `framebuffer_size_callback`). -/
structure PollResult where
  closeRequested : Bool
  resized : List (Int × Int)

/-- The external libraries.  Each field answers one library function; its first
argument is the list of calls made before this one.  `glGetShaderiv` and
`glGetProgramiv` give the value found in `success` after the call;
`glGetShaderInfoLog` and `glGetProgramInfoLog` give the text found in the
`infoLog` buffer after the call (arguments: object, buffer size). -/
structure Backend where
  glCreateShader : List Call → ShaderKind → Nat
  glGetShaderiv : List Call → Nat → Int
  glGetShaderInfoLog : List Call → Nat → Nat → String
  glCreateProgram : List Call → Nat
  glGetProgramiv : List Call → Nat → Int
  glGetProgramInfoLog : List Call → Nat → Nat → String
  glGenBuffers : List Call → Nat
  glGenVertexArrays : List Call → Nat
  glfwGetKey : List Call → KeyAction
  glfwPollEvents : List Call → PollResult

/-- Program state threaded through the embedding. -/
structure State where
  trace : List Call
  cout : List String
  mem : Loc → Nat
  shouldClose : Bool

/-- Record a library call. -/
def State.call (s : State) (c : Call) : State :=
  { s with trace := s.trace ++ [c] }

/-- One output statement on `std::cout`. -/
def State.print (s : State) (text : String) : State :=
  { s with cout := s.cout ++ [text] }

/-- Assignment to an `unsigned int` object. -/
def State.store (s : State) (l : Loc) (v : Nat) : State :=
  { s with mem := fun x => if x = l then v else s.mem x }

/-- The global `float vertices[]` of both files, in tenths. -/
def vertices : List Int := [-5, -5, 0, 5, -5, 0, 0, 5, 0]

/-- The value of `sizeof(float)`. -/
def sizeofFloat : Nat := 4

/-- The value of `sizeof(vertices)` where `vertices` names the global array. -/
def sizeofVertices : Nat := vertices.length * sizeofFloat

/-- The callback registered for framebuffer resizes (same text in both files). -/
def framebuffer_size_callback (width height : Int) (s : State) : State :=
  s.call (.glViewport 0 0 width height)

/-- The library function `glfwPollEvents`: it runs the resize callback for every
resize event and raises the close flag when the user asked to close. -/
def glfwPollEvents (B : Backend) (s : State) : State :=
  let ev := B.glfwPollEvents s.trace
  let s1 := s.call .glfwPollEvents
  let s2 := ev.resized.foldl (fun st wh => framebuffer_size_callback wh.1 wh.2 st) s1
  if ev.closeRequested then { s2 with shouldClose := true } else s2

/-- The library function `glfwSetWindowShouldClose`. -/
def glfwSetWindowShouldClose (value : Bool) (s : State) : State :=
  { s.call (.glfwSetWindowShouldClose value) with shouldClose := value }

/-- The text of one failed-compilation report:
`"ERROR::SHADER::" << *shader << "::COMPILATION_FAILED\n" << infoLog << std::endl`. -/
def compileMessage (shader : Nat) (infoLog : String) : String :=
  "ERROR::SHADER::" ++ toString shader ++ "::COMPILATION_FAILED\n" ++ infoLog ++ "\n"

/-! ## `main.cpp` -/

namespace Main

/-- The function `checkShaderSuccess` of `main.cpp`, lines 186-197.  The pointer
argument is only read, so the embedding takes the value it points to. -/
def checkShaderSuccess (B : Backend) (shader : Nat) (s : State) : State :=
  let success := B.glGetShaderiv s.trace shader
  let s1 := s.call (.glGetShaderiv shader success)
  if success = 0 then
    let infoLog := B.glGetShaderInfoLog s1.trace shader 512
    let s2 := s1.call (.glGetShaderInfoLog shader 512 infoLog)
    s2.print (compileMessage shader infoLog)
  else
    s1

/-- The function `compileShader` of `main.cpp`, lines 162-172. -/
def compileShader (B : Backend) (vertexShaderSource : String) (s : State) : Nat × State :=
  let vertexShader := B.glCreateShader s.trace .GL_VERTEX_SHADER
  let s1 := s.call (.glCreateShader .GL_VERTEX_SHADER vertexShader)
  let s2 := s1.call (.glShaderSource vertexShader 1 vertexShaderSource)
  let s3 := s2.call (.glCompileShader vertexShader)
  (vertexShader, checkShaderSuccess B vertexShader s3)

/-- The function `compileFragShader` of `main.cpp`, lines 174-184. -/
def compileFragShader (B : Backend) (fragShaderSource : String) (s : State) : Nat × State :=
  let fragmentShader := B.glCreateShader s.trace .GL_FRAGMENT_SHADER
  let s1 := s.call (.glCreateShader .GL_FRAGMENT_SHADER fragmentShader)
  let s2 := s1.call (.glShaderSource fragmentShader 1 fragShaderSource)
  let s3 := s2.call (.glCompileShader fragmentShader)
  (fragmentShader, checkShaderSuccess B fragmentShader s3)

/-- The function `shaderProgramBuild` of `main.cpp`, lines 199-219.  The two
parameters are pointers; `shaderProgram` in the body is the global. -/
def shaderProgramBuild (B : Backend) (vertexShader fragShader : Loc) (s : State) :
    Nat × State :=
  let ret := B.glCreateProgram s.trace
  let s1 := (s.call (.glCreateProgram ret)).store .shaderProgram ret
  let s2 := s1.call (.glAttachShader (s1.mem .shaderProgram) (s1.mem vertexShader))
  let s3 := s2.call (.glAttachShader (s2.mem .shaderProgram) (s2.mem fragShader))
  let s4 := s3.call (.glLinkProgram (s3.mem .shaderProgram))
  let success := B.glGetProgramiv s4.trace (s4.mem .shaderProgram)
  let s5 := s4.call (.glGetProgramiv (s4.mem .shaderProgram) success)
  let s6 :=
    if success = 0 then
      let infoLog := B.glGetProgramInfoLog s5.trace (s5.mem .shaderProgram) 512
      s5.call (.glGetProgramInfoLog (s5.mem .shaderProgram) 512 infoLog)
    else
      s5
  let s7 := s6.call (.glUseProgram (s6.mem .shaderProgram))
  let s8 := s7.call (.glDeleteShader (s7.mem vertexShader))
  let s9 := s8.call (.glDeleteShader (s8.mem fragShader))
  (s9.mem .shaderProgram, s9)

/-- The function `linkVertexAttribute` of `main.cpp`, lines 221-238.  All three
parameters are pointers; `vertices` in the body is the global array. -/
def linkVertexAttribute (B : Backend) (shaderProgram VBO VAO : Loc) (s : State) : State :=
  let ret := B.glGenVertexArrays s.trace
  let s1 := (s.call (.glGenVertexArrays 1 ret)).store VAO ret
  let s2 := s1.call (.glBindVertexArray (s1.mem VAO))
  let s3 := s2.call (.glBindBuffer (s2.mem VBO))
  let s4 := s3.call (.glBufferData sizeofVertices)
  let s5 := s4.call (.glVertexAttribPointer 0 3 (3 * sizeofFloat) 0)
  let s6 := s5.call (.glEnableVertexAttribArray 0)
  let s7 := s6.call (.glUseProgram (s6.mem shaderProgram))
  s7.call (.glBindVertexArray (s7.mem VAO))

/-- The function `processInput` of `main.cpp`, lines 81-85. -/
def processInput (B : Backend) (s : State) : State :=
  let key := B.glfwGetKey s.trace
  let s1 := s.call (.glfwGetKey key)
  if key = .GLFW_PRESS then glfwSetWindowShouldClose true s1 else s1

/-- The body of the `while` loop of `drawWindow`, lines 101-120 of `main.cpp`. -/
def drawWindowBody (B : Backend) (shaderProgram VAO : Loc) (s : State) : State :=
  let s1 := processInput B s
  let s2 := s1.call (.glClearColor 2 3 3 10)
  let s3 := s2.call .glClear
  let s4 := s3.call (.glUseProgram (s3.mem shaderProgram))
  let s5 := s4.call (.glBindVertexArray (s4.mem VAO))
  let s6 := s5.call (.glDrawArrays .GL_TRIANGLES 0 3)
  let s7 := s6.call .glfwSwapBuffers
  glfwPollEvents B s7

/-- The function `drawWindow` of `main.cpp`, lines 96-125.  The loop is bounded
by `fuel`; `none` means the fuel ran out before the window asked to close. -/
def drawWindow (B : Backend) : Nat → Loc → Loc → State → Option State
  | 0, _, _, _ => none
  | fuel + 1, shaderProgram, VAO, s =>
    let s0 := s.call (.glfwWindowShouldClose s.shouldClose)
    if s.shouldClose then
      some (s0.call .glfwTerminate)
    else
      drawWindow B fuel shaderProgram VAO (drawWindowBody B shaderProgram VAO s0)

/-- The global `vertexShaderSource` of `main.cpp`, lines 40-45, up to its first
NUL character. -/
def vertexShaderSource : String :=
  "#version 450 core\nlayout (location = 0) in vec3 aPos;\nvoid main()\n\x7b\n\tgl_Position = vec4(aPos.x, aPos.y, aPos.z, 1.0f);\n\x7d\n"

/-- The global `fragShaderSource` of `main.cpp`, lines 47-52, up to its first
NUL character. -/
def fragShaderSource : String :=
  "#version 330 core\nout vec4 FragColor;\nvoid main()\n\x7b\n\tFragColor = vec4(1.0f, 0.5f, 0.2f, 1.0f);\n\x7d\n"

/-- Lines 66-73 of `main` in `main.cpp`: everything between the loading of the
OpenGL functions and the render loop. -/
def mainSetup (B : Backend) (s : State) : State :=
  let ret := B.glGenBuffers s.trace
  let s1 := (s.call (.glGenBuffers 1 ret)).store .VBO ret
  let s2 := s1.call (.glBindBuffer (s1.mem .VBO))
  let s3 := s2.call (.glBufferData sizeofVertices)
  let r4 := compileShader B vertexShaderSource s3
  let s4 := r4.2.store .vertexShader r4.1
  let r5 := compileFragShader B fragShaderSource s4
  let s5 := r5.2.store .fragShader r5.1
  let r6 := shaderProgramBuild B .vertexShader .fragShader s5
  let s6 := r6.2.store .shaderProgram r6.1
  linkVertexAttribute B .shaderProgram .VBO .VAO s6

/-- Lines 66-74 of `main` in `main.cpp`: the setup followed by the render loop. -/
def main (B : Backend) (fuel : Nat) (s : State) : Option State :=
  drawWindow B fuel .shaderProgram .VAO (mainSetup B s)

end Main

/-! ## `helloTriangle.cpp` -/

namespace HelloTriangle

/-- The function `generateVBO` of `helloTriangle.cpp`, lines 114-120.  In its
body `vertices` is the parameter of type `float *`, so `sizeof(vertices)` is the
size of a pointer, `sizeofFloatPtr`. -/
def generateVBO (B : Backend) (sizeofFloatPtr : Nat) (s : State) : State :=
  let ret := B.glGenBuffers s.trace
  let s1 := (s.call (.glGenBuffers 1 ret)).store .VBO ret
  let s2 := s1.call (.glBindBuffer (s1.mem .VBO))
  s2.call (.glBufferData sizeofFloatPtr)

/-- The function `checkShaderSuccess` of `helloTriangle.cpp`, lines 195-206.
The pointer argument is only read, so the embedding takes the value it points
to. -/
def checkShaderSuccess (B : Backend) (shader : Nat) (s : State) : State :=
  let success := B.glGetShaderiv s.trace shader
  let s1 := s.call (.glGetShaderiv shader success)
  if success = 0 then
    let infoLog := B.glGetShaderInfoLog s1.trace shader 512
    let s2 := s1.call (.glGetShaderInfoLog shader 512 infoLog)
    s2.print (compileMessage shader infoLog)
  else
    s1

/-- The function `compileShader` of `helloTriangle.cpp`, lines 175-193.  The
local `shader` is declared without an initialiser; `uninit` is the value it
holds when neither branch assigns it. -/
def compileShader (B : Backend) (uninit : Nat) (shaderSource : String)
    (shaderType : CharPtr) (s : State) : Nat × State :=
  let r : Nat × State :=
    if shaderType = .vertexType then
      let ret := B.glCreateShader s.trace .GL_VERTEX_SHADER
      (ret, s.call (.glCreateShader .GL_VERTEX_SHADER ret))
    else if shaderType = .fragType then
      let ret := B.glCreateShader s.trace .GL_FRAGMENT_SHADER
      (ret, s.call (.glCreateShader .GL_FRAGMENT_SHADER ret))
    else
      (uninit, s)
  let shader := r.1
  let s2 := r.2.call (.glShaderSource shader 1 shaderSource)
  let s3 := s2.call (.glCompileShader shader)
  (shader, checkShaderSuccess B shader s3)

/-- The function `shaderProgramBuild` of `helloTriangle.cpp`, lines 208-228.
The two parameters are pointers; `shaderProgram` in the body is the global. -/
def shaderProgramBuild (B : Backend) (vertexShader fragShader : Loc) (s : State) :
    Nat × State :=
  let ret := B.glCreateProgram s.trace
  let s1 := (s.call (.glCreateProgram ret)).store .shaderProgram ret
  let s2 := s1.call (.glAttachShader (s1.mem .shaderProgram) (s1.mem vertexShader))
  let s3 := s2.call (.glAttachShader (s2.mem .shaderProgram) (s2.mem fragShader))
  let s4 := s3.call (.glLinkProgram (s3.mem .shaderProgram))
  let success := B.glGetProgramiv s4.trace (s4.mem .shaderProgram)
  let s5 := s4.call (.glGetProgramiv (s4.mem .shaderProgram) success)
  let s6 :=
    if success = 0 then
      let infoLog := B.glGetProgramInfoLog s5.trace (s5.mem .shaderProgram) 512
      s5.call (.glGetProgramInfoLog (s5.mem .shaderProgram) 512 infoLog)
    else
      s5
  let s7 := s6.call (.glUseProgram (s6.mem .shaderProgram))
  let s8 := s7.call (.glDeleteShader (s7.mem vertexShader))
  let s9 := s8.call (.glDeleteShader (s8.mem fragShader))
  (s9.mem .shaderProgram, s9)

/-- The function `linkVertexAttribute` of `helloTriangle.cpp`, lines 230-247.
All three parameters are pointers; `vertices` in the body is the global array. -/
def linkVertexAttribute (B : Backend) (shaderProgram VBO VAO : Loc) (s : State) : State :=
  let ret := B.glGenVertexArrays s.trace
  let s1 := (s.call (.glGenVertexArrays 1 ret)).store VAO ret
  let s2 := s1.call (.glBindVertexArray (s1.mem VAO))
  let s3 := s2.call (.glBindBuffer (s2.mem VBO))
  let s4 := s3.call (.glBufferData sizeofVertices)
  let s5 := s4.call (.glVertexAttribPointer 0 3 (3 * sizeofFloat) 0)
  let s6 := s5.call (.glEnableVertexAttribArray 0)
  let s7 := s6.call (.glUseProgram (s6.mem shaderProgram))
  s7.call (.glBindVertexArray (s7.mem VAO))

/-- The function `processInput` of `helloTriangle.cpp`, lines 122-128. -/
def processInput (B : Backend) (s : State) : State :=
  let key := B.glfwGetKey s.trace
  let s1 := s.call (.glfwGetKey key)
  if key = .GLFW_PRESS then glfwSetWindowShouldClose true s1 else s1

/-- The function `flip` of `helloTriangle.cpp`, lines 167-173. -/
def flip (B : Backend) (s : State) : State :=
  glfwPollEvents B (s.call .glfwSwapBuffers)

/-- The body of the `while` loop of `draw`, lines 144-160 of
`helloTriangle.cpp`. -/
def drawBody (B : Backend) (shaderProgram VAO : Loc) (s : State) : State :=
  let s1 := processInput B s
  let s2 := s1.call (.glClearColor 2 3 3 10)
  let s3 := s2.call .glClear
  let s4 := s3.call (.glUseProgram (s3.mem shaderProgram))
  let s5 := s4.call (.glBindVertexArray (s4.mem VAO))
  let s6 := s5.call (.glDrawArrays .GL_TRIANGLES 0 3)
  flip B s6

/-- The function `draw` of `helloTriangle.cpp`, lines 139-165.  The loop is
bounded by `fuel`; `none` means the fuel ran out before the window asked to
close. -/
def draw (B : Backend) : Nat → Loc → Loc → State → Option State
  | 0, _, _, _ => none
  | fuel + 1, shaderProgram, VAO, s =>
    let s0 := s.call (.glfwWindowShouldClose s.shouldClose)
    if s.shouldClose then
      some (s0.call .glfwTerminate)
    else
      draw B fuel shaderProgram VAO (drawBody B shaderProgram VAO s0)

/-- The global `vertexShaderSource` of `helloTriangle.cpp`, lines 43-48, up to
its first NUL character. -/
def vertexShaderSource : String :=
  "#version 450 core\nlayout (location = 0) in vec3 aPos;\nvoid main()\n\x7b\n\tgl_Position = vec4(aPos.x, aPos.y, aPos.z, 1.0f);\n\x7d\n"

/-- The global `fragShaderSource` of `helloTriangle.cpp`, lines 50-55, up to its
first NUL character. -/
def fragShaderSource : String :=
  "#version 330 core\nout vec4 FragColor;\nvoid main()\n\x7b\n\tFragColor = vec4(1.0f, 0.5f, 0.2f, 1.0f);\n\x7d\n"

/-- Lines 68-73 of `main` in `helloTriangle.cpp`: everything between the loading
of the OpenGL functions and the render loop.  `uninit` is the value of the
uninitialised local of `compileShader`, `sizeofFloatPtr` the value of
`sizeof(float *)`. -/
def mainSetup (B : Backend) (sizeofFloatPtr uninit : Nat) (s : State) : State :=
  let s3 := generateVBO B sizeofFloatPtr s
  let r4 := compileShader B uninit vertexShaderSource .vertexType s3
  let s4 := r4.2.store .vertexShader r4.1
  let r5 := compileShader B uninit fragShaderSource .fragType s4
  let s5 := r5.2.store .fragShader r5.1
  let r6 := shaderProgramBuild B .vertexShader .fragShader s5
  let s6 := r6.2.store .shaderProgram r6.1
  linkVertexAttribute B .shaderProgram .VBO .VAO s6

/-- Lines 68-74 of `main` in `helloTriangle.cpp`: the setup followed by the
render loop. -/
def main (B : Backend) (sizeofFloatPtr uninit fuel : Nat) (s : State) : Option State :=
  draw B fuel .shaderProgram .VAO (mainSetup B sizeofFloatPtr uninit s)

end HelloTriangle

/-! ## Observations on a run -/

/-- The library calls made between state `s` and a later state `s2`. -/
def callsSince (s s2 : State) : List Call :=
  s2.trace.drop s.trace.length

/-- The texts written to `std::cout` between state `s` and a later state `s2`. -/
def coutSince (s s2 : State) : List String :=
  s2.cout.drop s.cout.length

/-- The handles passed to `glDeleteShader`, in call order. -/
def deletedShaders (t : List Call) : List Nat :=
  t.filterMap (fun c => match c with
    | .glDeleteShader h => some h
    | _ => none)

/-- The handles passed to `glUseProgram`, in call order. -/
def usedPrograms (t : List Call) : List Nat :=
  t.filterMap (fun c => match c with
    | .glUseProgram p => some p
    | _ => none)

/-- The program named by the most recent `glUseProgram` call. -/
def currentProgram (t : List Call) : Option Nat :=
  (usedPrograms t).getLast?

/-- The kinds requested from `glCreateShader`, in call order. -/
def createdKinds (t : List Call) : List ShaderKind :=
  t.filterMap (fun c => match c with
    | .glCreateShader k _ => some k
    | _ => none)

/-- The compile statuses handed back by `glGetShaderiv`, in call order. -/
def compileStatuses (t : List Call) : List Int :=
  t.filterMap (fun c => match c with
    | .glGetShaderiv _ success => some success
    | _ => none)

/-- The byte sizes passed to `glBufferData`, in call order. -/
def uploadSizes (t : List Call) : List Nat :=
  t.filterMap (fun c => match c with
    | .glBufferData n => some n
    | _ => none)

/-- A state with nothing recorded and every variable zero. -/
def State.initial : State :=
  { trace := [], cout := [], mem := fun _ => 0, shouldClose := false }

/-- The effect of one compilation of a shader of kind `kind` from text `src`,
started in state `s` and ending with result `r`: the handle returned is the one
`glCreateShader` gave, the calls are the four of the compile sequence on that
handle followed by the log query exactly when the status is zero, and the
report is written exactly when the status is zero. -/
def CompileEffect (B : Backend) (kind : ShaderKind) (src : String) (s : State)
    (r : Nat × State) : Prop :=
  r.1 = B.glCreateShader s.trace kind ∧
  ∃ success infoLog,
    r.2.trace = s.trace ++
      [Call.glCreateShader kind r.1, Call.glShaderSource r.1 1 src,
        Call.glCompileShader r.1, Call.glGetShaderiv r.1 success]
      ++ (if success = 0 then [Call.glGetShaderInfoLog r.1 512 infoLog] else []) ∧
    r.2.cout = s.cout ++ (if success = 0 then [compileMessage r.1 infoLog] else [])

/-- The call sequence of one compilation: `glCreateShader` with kind `kind`
returning the handle `r.1`, then `glShaderSource`, `glCompileShader` and
`glGetShaderiv` on that handle, with the given text, and after them nothing but
the log query of a failed compilation. -/
def CompileCalls (B : Backend) (kind : ShaderKind) (src : String) (s : State)
    (r : Nat × State) : Prop :=
  r.1 = B.glCreateShader s.trace kind ∧
  ∃ success rest,
    callsSince s r.2 =
      [Call.glCreateShader kind r.1, Call.glShaderSource r.1 1 src,
        Call.glCompileShader r.1, Call.glGetShaderiv r.1 success] ++ rest ∧
    (rest = [] ∨ ∃ infoLog, rest = [Call.glGetShaderInfoLog r.1 512 infoLog])

/-- The history the backend sees when a compilation of kind `kind` from text
`src`, started with history `t`, asks for the compile status: `t` followed by
`glCreateShader`, `glShaderSource` and `glCompileShader` on the handle that
`glCreateShader` returned. -/
def compileHistory (B : Backend) (kind : ShaderKind) (src : String) (t : List Call) :
    List Call :=
  t ++ [Call.glCreateShader kind (B.glCreateShader t kind),
    Call.glShaderSource (B.glCreateShader t kind) 1 src,
    Call.glCompileShader (B.glCreateShader t kind)]

/-- The compile status the backend reports to a compilation of kind `kind` from
text `src` started with history `t`. -/
def backendCompileStatus (B : Backend) (kind : ShaderKind) (src : String) (t : List Call) :
    Int :=
  B.glGetShaderiv (compileHistory B kind src t) (B.glCreateShader t kind)

/-- The log the backend hands to that compilation when it is asked for it after
the status. -/
def backendCompileLog (B : Backend) (kind : ShaderKind) (src : String) (t : List Call) :
    String :=
  B.glGetShaderInfoLog
    (compileHistory B kind src t ++
      [Call.glGetShaderiv (B.glCreateShader t kind) (backendCompileStatus B kind src t)])
    (B.glCreateShader t kind) 512

/-- Between `s` and `s2` the compile status `status` was read, once, for the
handle `shader`; when it is zero exactly one text was written to `std::cout`,
the report on `shader` with the log `infoLog`; when it is not zero nothing was
written. -/
def ReportsStatus (s s2 : State) (shader : Nat) (status : Int) (infoLog : String) : Prop :=
  compileStatuses (callsSince s s2) = [status] ∧
  Call.glGetShaderiv shader status ∈ callsSince s s2 ∧
  coutSince s s2 =
    (if status = 0 then
      ["ERROR::SHADER::" ++ toString shader ++ "::COMPILATION_FAILED\n" ++ infoLog ++ "\n"]
    else []) ∧
  (coutSince s s2).length = (if status = 0 then 1 else 0)

/-- The reporting of `checkShaderSuccess` on the handle `shader`, from `s` to
`s2`: `ReportsStatus` for the status and the log that the backend `B` answers
to the two queries on `shader`. -/
def StatusReport (B : Backend) (shader : Nat) (s s2 : State) : Prop :=
  ReportsStatus s s2 shader (B.glGetShaderiv s.trace shader)
    (B.glGetShaderInfoLog
      (s.trace ++ [Call.glGetShaderiv shader (B.glGetShaderiv s.trace shader)]) shader 512)

/-- The reporting of one compilation of kind `kind` from text `src`: the handle
returned is the one `glCreateShader` gave, and `ReportsStatus` holds for the
status and the log that the backend `B` answers to this compilation. -/
def CompileReport (B : Backend) (kind : ShaderKind) (src : String) (s : State)
    (r : Nat × State) : Prop :=
  r.1 = B.glCreateShader s.trace kind ∧
  ReportsStatus s r.2 r.1 (backendCompileStatus B kind src s.trace)
    (backendCompileLog B kind src s.trace)

/-- A compilation that ended in `r` was rejected and the log read back from the
backend was `infoLog`. -/
def RejectedWith (s : State) (r : Nat × State) (infoLog : String) : Prop :=
  Call.glGetShaderiv r.1 0 ∈ callsSince s r.2 ∧
  Call.glGetShaderInfoLog r.1 512 infoLog ∈ callsSince s r.2

instance (s : State) (r : Nat × State) (infoLog : String) :
    Decidable (RejectedWith s r infoLog) := by
  unfold RejectedWith
  infer_instance

/-- A backend that gives every shader the handle 1, every program the handle 3,
and rejects every compilation and every link, with the logs `syntax error` and `link error`; no
key is pressed and no window event arrives. -/
def rejectingBackend : Backend where
  glCreateShader := fun _ _ => 1
  glGetShaderiv := fun _ _ => 0
  glGetShaderInfoLog := fun _ _ _ => "syntax error"
  glCreateProgram := fun _ => 3
  glGetProgramiv := fun _ _ => 0
  glGetProgramInfoLog := fun _ _ _ => "link error"
  glGenBuffers := fun _ => 1
  glGenVertexArrays := fun _ => 1
  glfwGetKey := fun _ => .GLFW_RELEASE
  glfwPollEvents := fun _ => { closeRequested := false, resized := [] }

/-- A backend on which every object creation fails: `glCreateShader` and
`glCreateProgram` return 0, every status read is 0 and every log is empty. -/
def failingBackend : Backend where
  glCreateShader := fun _ _ => 0
  glGetShaderiv := fun _ _ => 0
  glGetShaderInfoLog := fun _ _ _ => ""
  glCreateProgram := fun _ => 0
  glGetProgramiv := fun _ _ => 0
  glGetProgramInfoLog := fun _ _ _ => ""
  glGenBuffers := fun _ => 0
  glGenVertexArrays := fun _ => 0
  glfwGetKey := fun _ => .GLFW_RELEASE
  glfwPollEvents := fun _ => { closeRequested := false, resized := [] }

/-- A backend on which the escape key is up during the first frame and down
from the second frame on (that is, once a buffer swap has been made); the
window system asks for no close and reports one resize, to 640 by 480, in each
poll. -/
def escapeLaterBackend : Backend where
  glCreateShader := fun t _ => t.length + 1
  glGetShaderiv := fun _ _ => 1
  glGetShaderInfoLog := fun _ _ _ => ""
  glCreateProgram := fun t => t.length + 1
  glGetProgramiv := fun _ _ => 1
  glGetProgramInfoLog := fun _ _ _ => ""
  glGenBuffers := fun t => t.length + 1
  glGenVertexArrays := fun t => t.length + 1
  glfwGetKey := fun t => if Call.glfwSwapBuffers ∈ t then .GLFW_PRESS else .GLFW_RELEASE
  glfwPollEvents := fun _ => { closeRequested := false, resized := [(640, 480)] }

/-- A backend that numbers its objects by the length of the call history,
accepts every compilation and every link, and reports the escape key pressed
from the start. -/
def acceptingBackend : Backend where
  glCreateShader := fun t _ => t.length + 1
  glGetShaderiv := fun _ _ => 1
  glGetShaderInfoLog := fun _ _ _ => ""
  glCreateProgram := fun t => t.length + 1
  glGetProgramiv := fun _ _ => 1
  glGetProgramInfoLog := fun _ _ _ => ""
  glGenBuffers := fun t => t.length + 1
  glGenVertexArrays := fun t => t.length + 1
  glfwGetKey := fun _ => .GLFW_PRESS
  glfwPollEvents := fun _ => { closeRequested := false, resized := [] }

/-- The release behaviour of one `shaderProgramBuild` that started in `s` and
ended with result `r`, for the input handles `v` and `f`: the calls split at the
`glLinkProgram` call, no shader is deleted before it, the shaders deleted after
it are `v` and `f`, each of them is deleted by exactly one call, and no handle
is deleted twice. -/
def ReleasesOnce (s : State) (r : Nat × State) (v f : Nat) : Prop :=
  ∃ pre post,
    callsSince s r.2 = pre ++ [Call.glLinkProgram r.1] ++ post ∧
    deletedShaders pre = [] ∧
    deletedShaders post = [v, f] ∧
    (callsSince s r.2).count (Call.glDeleteShader v) = 1 ∧
    (callsSince s r.2).count (Call.glDeleteShader f) = 1 ∧
    (deletedShaders (callsSince s r.2)).Nodup

/-- The activation behaviour of one `shaderProgramBuild` that started in `s` and
ended with result `r`: the value returned is the handle `glCreateProgram` gave,
the global `shaderProgram` holds it, it is the program of the most recent
`glUseProgram`, and among the calls made `glUseProgram` occurs once, after
`glLinkProgram`, with that handle. -/
def ActivatesProgram (B : Backend) (s : State) (r : Nat × State) : Prop :=
  r.1 = B.glCreateProgram s.trace ∧
  r.2.mem Loc.shaderProgram = r.1 ∧
  currentProgram r.2.trace = some r.1 ∧
  ∃ pre post,
    callsSince s r.2 = pre ++ [Call.glLinkProgram r.1] ++ post ∧
    Call.glCreateProgram r.1 ∈ pre ∧
    usedPrograms pre = [] ∧
    usedPrograms post = [r.1]

/-- A state in which the globals `vertexShader` and `fragShader` hold the same
handle, 5. -/
def sameHandleState : State :=
  (State.initial.store .vertexShader 5).store .fragShader 5

/-- A state in which the global `shaderProgram` holds the handle 7 and the
global `fragShader` the handle 2. -/
def staleProgramState : State :=
  (State.initial.store .shaderProgram 7).store .fragShader 2

/-- A state in which the globals `vertexShader` and `fragShader` hold the
handles 1 and 2. -/
def twoShadersState : State :=
  (State.initial.store .vertexShader 1).store .fragShader 2

/-- The results of the loop tests `glfwWindowShouldClose`, in call order. -/
def closeTests (t : List Call) : List Bool :=
  t.filterMap (fun c => match c with
    | .glfwWindowShouldClose b => some b
    | _ => none)

/-- The arguments of the `glDrawArrays` calls, in call order. -/
def drawCalls (t : List Call) : List (DrawMode × Nat × Nat) :=
  t.filterMap (fun c => match c with
    | .glDrawArrays m first count => some (m, first, count)
    | _ => none)

/-- The `glViewport` calls made by the resize callback for a list of resize
events. -/
def viewportCalls (resized : List (Int × Int)) : List Call :=
  resized.map (fun wh => Call.glViewport 0 0 wh.1 wh.2)

/-- The calls of one round of the render loop: the loop test answering `false`,
the key query answering `key`, the close request when the key is pressed, the
rendering calls with the program `program` and the vertex array `array`, the
buffer swap, and the event poll with its resize callbacks. -/
def frameCalls (key : KeyAction) (program array : Nat) (resized : List (Int × Int)) :
    List Call :=
  [Call.glfwWindowShouldClose false, Call.glfwGetKey key]
    ++ (if key = .GLFW_PRESS then [Call.glfwSetWindowShouldClose true] else [])
    ++ [Call.glClearColor 2 3 3 10, Call.glClear, Call.glUseProgram program,
        Call.glBindVertexArray array, Call.glDrawArrays .GL_TRIANGLES 0 3,
        Call.glfwSwapBuffers, Call.glfwPollEvents]
    ++ viewportCalls resized

/-- The shape of the calls of one frame: it starts with one loop test that
answered `false`; it has one `glClear`, then one `glDrawArrays`, which is
`glDrawArrays(GL_TRIANGLES, 0, 3)`, then one `glfwSwapBuffers`, and no other
call of these three functions; it does not call `glfwTerminate`; it uploads no
buffer; and it calls `glfwSetWindowShouldClose`, with `true`, exactly when
`glfwGetKey` answered `GLFW_PRESS`. -/
def IsFrame (fr : List Call) : Prop :=
  closeTests fr = [false] ∧
  fr.head? = some (Call.glfwWindowShouldClose false) ∧
  (∃ a b c d, fr = a ++ [Call.glClear] ++ b ++ [Call.glDrawArrays .GL_TRIANGLES 0 3] ++ c
      ++ [Call.glfwSwapBuffers] ++ d) ∧
  fr.count Call.glClear = 1 ∧
  drawCalls fr = [(DrawMode.GL_TRIANGLES, 0, 3)] ∧
  fr.count Call.glfwSwapBuffers = 1 ∧
  Call.glfwTerminate ∉ fr ∧
  uploadSizes fr = [] ∧
  Call.glfwSetWindowShouldClose false ∉ fr ∧
  (Call.glfwSetWindowShouldClose true ∈ fr ↔ Call.glfwGetKey .GLFW_PRESS ∈ fr)

/-- The calls of one round of the render loop up to and including the buffer
swap, when the key query answered `key`. -/
def frameHead (key : KeyAction) (program array : Nat) : List Call :=
  [Call.glfwWindowShouldClose false, Call.glfwGetKey key]
    ++ (if key = .GLFW_PRESS then [Call.glfwSetWindowShouldClose true] else [])
    ++ [Call.glClearColor 2 3 3 10, Call.glClear, Call.glUseProgram program,
        Call.glBindVertexArray array, Call.glDrawArrays .GL_TRIANGLES 0 3,
        Call.glfwSwapBuffers]

/-- The calls of the frame that the backend `B` brings about when a round of
the loop starts with history `t` and the flag down: the key is the one `B`
answers after the loop test, and the resize callbacks are those of the events
`B` delivers to the poll. -/
def backendFrame (B : Backend) (program array : Nat) (t : List Call) : List Call :=
  frameCalls (B.glfwGetKey (t ++ [Call.glfwWindowShouldClose false])) program array
    (B.glfwPollEvents
      (t ++ frameHead (B.glfwGetKey (t ++ [Call.glfwWindowShouldClose false])) program array)
    ).resized

/-- The first `k` frames that the backend `B` brings about from history `t`,
each one starting where the one before it ended. -/
def backendFrames (B : Backend) (program array : Nat) : Nat → List Call → List (List Call)
  | 0, _ => []
  | k + 1, t =>
    backendFrame B program array t
      :: backendFrames B program array k (t ++ backendFrame B program array t)

/-- What `processInput` does on the backend `B`, from state `s` to state `s2`:
it asks for the escape key once, receives the answer of `B`, calls
`glfwSetWindowShouldClose(window, true)` exactly when that answer is
`GLFW_PRESS` and makes no other call; the close flag afterwards is raised
exactly when it was raised before or `B` reports the key pressed. -/
def ProcessInputEffect (B : Backend) (s s2 : State) : Prop :=
  callsSince s s2 = [Call.glfwGetKey (B.glfwGetKey s.trace)]
    ++ (if B.glfwGetKey s.trace = .GLFW_PRESS then [Call.glfwSetWindowShouldClose true]
        else []) ∧
  (Call.glfwSetWindowShouldClose true ∈ callsSince s s2
    ↔ B.glfwGetKey s.trace = .GLFW_PRESS) ∧
  s2.shouldClose = (s.shouldClose || decide (B.glfwGetKey s.trace = .GLFW_PRESS)) ∧
  s2.mem = s.mem

/-- One round of the loop of `draw` in `helloTriangle.cpp`: the loop test
followed by the loop body. -/
def HelloTriangle.drawRound (B : Backend) (shaderProgram VAO : Loc) (s : State) : State :=
  HelloTriangle.drawBody B shaderProgram VAO (s.call (.glfwWindowShouldClose s.shouldClose))

/-- One round of the loop of `drawWindow` in `main.cpp`: the loop test followed
by the loop body. -/
def Main.drawWindowRound (B : Backend) (shaderProgram VAO : Loc) (s : State) : State :=
  Main.drawWindowBody B shaderProgram VAO (s.call (.glfwWindowShouldClose s.shouldClose))

/-- The close flag is first seen raised at loop test number `k + 1`: it is down
at the start of each of the first `k` rounds and raised after them. -/
def FirstCloseAt (round : State → State) (s : State) (k : Nat) : Prop :=
  (∀ j < k, ((round^[j]) s).shouldClose = false) ∧ ((round^[k]) s).shouldClose = true

instance (round : State → State) (s : State) (k : Nat) : Decidable (FirstCloseAt round s k) := by
  unfold FirstCloseAt
  infer_instance

/-- The outcome of a render loop that started in `s` and ran `k` frames on the
backend `B`, drawing with the program `program` and the vertex array `array`:
it returns a state `s2`, and the calls made are `k` frames, each of the shape
`IsFrame`, followed by the loop test that answered `true` and by the single
`glfwTerminate`; the frames are the ones `B` brings about, so in each of them
the key recorded is the answer of `B` and `glfwSetWindowShouldClose` is called
exactly when that answer is `GLFW_PRESS`. -/
def RunsFrames (B : Backend) (program array : Nat) (result : Option State) (s : State)
    (k : Nat) : Prop :=
  ∃ (s2 : State) (frames : List (List Call)),
    result = some s2 ∧
    frames.length = k ∧
    (∀ fr ∈ frames, IsFrame fr) ∧
    callsSince s s2 = frames.flatten ++ [Call.glfwWindowShouldClose true, Call.glfwTerminate] ∧
    frames = backendFrames B program array k s.trace

/-- Between state `s` and the later state `s2` the buffer uploads made have the
byte sizes `sizes`, in this order. -/
def Uploads (s s2 : State) (sizes : List Nat) : Prop :=
  ∃ d, s2.trace = s.trace ++ d ∧ uploadSizes d = sizes

/-! ## Basic facts about states -/

@[simp] theorem State.call_trace (s : State) (c : Call) : (s.call c).trace = s.trace ++ [c] := rfl
@[simp] theorem State.call_cout (s : State) (c : Call) : (s.call c).cout = s.cout := rfl
@[simp] theorem State.call_mem (s : State) (c : Call) : (s.call c).mem = s.mem := rfl
@[simp] theorem State.call_shouldClose (s : State) (c : Call) :
    (s.call c).shouldClose = s.shouldClose := rfl
@[simp] theorem State.print_trace (s : State) (m : String) : (s.print m).trace = s.trace := rfl
@[simp] theorem State.print_cout (s : State) (m : String) : (s.print m).cout = s.cout ++ [m] := rfl
@[simp] theorem State.print_mem (s : State) (m : String) : (s.print m).mem = s.mem := rfl
@[simp] theorem State.print_shouldClose (s : State) (m : String) :
    (s.print m).shouldClose = s.shouldClose := rfl
@[simp] theorem State.store_trace (s : State) (l : Loc) (v : Nat) :
    (s.store l v).trace = s.trace := rfl
@[simp] theorem State.store_cout (s : State) (l : Loc) (v : Nat) :
    (s.store l v).cout = s.cout := rfl
@[simp] theorem State.store_shouldClose (s : State) (l : Loc) (v : Nat) :
    (s.store l v).shouldClose = s.shouldClose := rfl
@[simp] theorem State.store_mem_same (s : State) (l : Loc) (v : Nat) :
    (s.store l v).mem l = v := by simp [State.store]
theorem State.store_mem_other (s : State) (l x : Loc) (v : Nat) (h : x ≠ l) :
    (s.store l v).mem x = s.mem x := by simp [State.store, h]

theorem callsSince_of_trace (s s2 : State) (d : List Call) (h : s2.trace = s.trace ++ d) :
    callsSince s s2 = d := by
  simp [callsSince, h]

theorem coutSince_of_cout (s s2 : State) (d : List String) (h : s2.cout = s.cout ++ d) :
    coutSince s s2 = d := by
  simp [coutSince, h]

/-! ## Compilation -/

/-- What `checkShaderSuccess` of `main.cpp` does to the trace and to `std::cout`. -/
theorem Main.checkShaderSuccess_spec (B : Backend) (shader : Nat) (s : State) :
    ∃ success infoLog,
      (Main.checkShaderSuccess B shader s).trace
          = s.trace ++ [Call.glGetShaderiv shader success]
              ++ (if success = 0 then [Call.glGetShaderInfoLog shader 512 infoLog] else []) ∧
      (Main.checkShaderSuccess B shader s).cout
          = s.cout ++ (if success = 0 then [compileMessage shader infoLog] else []) := by
  refine ⟨B.glGetShaderiv s.trace shader,
    B.glGetShaderInfoLog (s.trace ++ [Call.glGetShaderiv shader (B.glGetShaderiv s.trace shader)])
      shader 512, ?_⟩
  unfold Main.checkShaderSuccess
  by_cases h : B.glGetShaderiv s.trace shader = 0 <;> simp [h]

/-- The calls and the output of `checkShaderSuccess` of `main.cpp`, with the
answers of the backend spelled out. -/
theorem Main.checkShaderSuccess_exact (B : Backend) (shader : Nat) (s : State) :
    (Main.checkShaderSuccess B shader s).trace
        = s.trace ++ ([Call.glGetShaderiv shader (B.glGetShaderiv s.trace shader)]
            ++ (if B.glGetShaderiv s.trace shader = 0 then
                  [Call.glGetShaderInfoLog shader 512 (B.glGetShaderInfoLog
                    (s.trace ++ [Call.glGetShaderiv shader (B.glGetShaderiv s.trace shader)])
                    shader 512)]
                else [])) ∧
    (Main.checkShaderSuccess B shader s).cout
        = s.cout ++ (if B.glGetShaderiv s.trace shader = 0 then
            ["ERROR::SHADER::" ++ toString shader ++ "::COMPILATION_FAILED\n"
              ++ B.glGetShaderInfoLog
                  (s.trace ++ [Call.glGetShaderiv shader (B.glGetShaderiv s.trace shader)])
                  shader 512 ++ "\n"]
          else []) := by
  unfold Main.checkShaderSuccess
  by_cases h : B.glGetShaderiv s.trace shader = 0 <;> simp [h, compileMessage]

theorem reportsStatus_intro (s s2 : State) (shader : Nat) (status : Int) (infoLog : String)
    (pre rest : List Call) (hpre : compileStatuses pre = []) (hrest : compileStatuses rest = [])
    (ht : s2.trace = s.trace ++ (pre ++ ([Call.glGetShaderiv shader status] ++ rest)))
    (hc : s2.cout = s.cout ++ (if status = 0 then
      ["ERROR::SHADER::" ++ toString shader ++ "::COMPILATION_FAILED\n" ++ infoLog ++ "\n"]
      else [])) :
    ReportsStatus s s2 shader status infoLog := by
  have hcalls := callsSince_of_trace _ _ _ ht
  have hcout := coutSince_of_cout _ _ _ hc
  refine ⟨?_, ?_, hcout, ?_⟩
  · rw [hcalls]
    unfold compileStatuses at hpre hrest ⊢
    rw [List.filterMap_append, List.filterMap_append, hpre, hrest]
    simp
  · rw [hcalls]; simp
  · rw [hcout]; by_cases h0 : status = 0 <;> simp [h0]

theorem Main.checkShaderSuccess_report (B : Backend) (shader : Nat) (s : State) :
    StatusReport B shader s (Main.checkShaderSuccess B shader s) := by
  obtain ⟨ht, hc⟩ := Main.checkShaderSuccess_exact B shader s
  refine reportsStatus_intro _ _ _ _ _ [] _ rfl ?_ (by simpa using ht) hc
  by_cases h0 : B.glGetShaderiv s.trace shader = 0 <;> simp [compileStatuses, h0]

theorem Main.compileShader_report (B : Backend) (src : String) (s : State) :
    CompileReport B .GL_VERTEX_SHADER src s (Main.compileShader B src s) := by
  refine ⟨rfl, ?_⟩
  obtain ⟨ht, hc⟩ := Main.checkShaderSuccess_exact B (B.glCreateShader s.trace .GL_VERTEX_SHADER)
    (((s.call (.glCreateShader .GL_VERTEX_SHADER (B.glCreateShader s.trace .GL_VERTEX_SHADER))).call
      (.glShaderSource (B.glCreateShader s.trace .GL_VERTEX_SHADER) 1 src)).call
      (.glCompileShader (B.glCreateShader s.trace .GL_VERTEX_SHADER)))
  refine reportsStatus_intro _ _ _ _ _
    [Call.glCreateShader .GL_VERTEX_SHADER (B.glCreateShader s.trace .GL_VERTEX_SHADER),
      Call.glShaderSource (B.glCreateShader s.trace .GL_VERTEX_SHADER) 1 src,
      Call.glCompileShader (B.glCreateShader s.trace .GL_VERTEX_SHADER)]
    (if backendCompileStatus B .GL_VERTEX_SHADER src s.trace = 0 then
      [Call.glGetShaderInfoLog (B.glCreateShader s.trace .GL_VERTEX_SHADER) 512
        (backendCompileLog B .GL_VERTEX_SHADER src s.trace)] else [])
    (by simp [compileStatuses]) ?_ ?_ ?_
  · by_cases h0 : backendCompileStatus B .GL_VERTEX_SHADER src s.trace = 0 <;>
      simp [compileStatuses, h0]
  · simp only [Main.compileShader, ht]
    simp [backendCompileStatus, backendCompileLog, compileHistory]
  · simp only [Main.compileShader, hc]
    simp [backendCompileStatus, backendCompileLog, compileHistory]

theorem Main.compileFragShader_report (B : Backend) (src : String) (s : State) :
    CompileReport B .GL_FRAGMENT_SHADER src s (Main.compileFragShader B src s) := by
  refine ⟨rfl, ?_⟩
  obtain ⟨ht, hc⟩ := Main.checkShaderSuccess_exact B
    (B.glCreateShader s.trace .GL_FRAGMENT_SHADER)
    (((s.call (.glCreateShader .GL_FRAGMENT_SHADER
        (B.glCreateShader s.trace .GL_FRAGMENT_SHADER))).call
      (.glShaderSource (B.glCreateShader s.trace .GL_FRAGMENT_SHADER) 1 src)).call
      (.glCompileShader (B.glCreateShader s.trace .GL_FRAGMENT_SHADER)))
  refine reportsStatus_intro _ _ _ _ _
    [Call.glCreateShader .GL_FRAGMENT_SHADER (B.glCreateShader s.trace .GL_FRAGMENT_SHADER),
      Call.glShaderSource (B.glCreateShader s.trace .GL_FRAGMENT_SHADER) 1 src,
      Call.glCompileShader (B.glCreateShader s.trace .GL_FRAGMENT_SHADER)]
    (if backendCompileStatus B .GL_FRAGMENT_SHADER src s.trace = 0 then
      [Call.glGetShaderInfoLog (B.glCreateShader s.trace .GL_FRAGMENT_SHADER) 512
        (backendCompileLog B .GL_FRAGMENT_SHADER src s.trace)] else [])
    (by simp [compileStatuses]) ?_ ?_ ?_
  · by_cases h0 : backendCompileStatus B .GL_FRAGMENT_SHADER src s.trace = 0 <;>
      simp [compileStatuses, h0]
  · simp only [Main.compileFragShader, ht]
    simp [backendCompileStatus, backendCompileLog, compileHistory]
  · simp only [Main.compileFragShader, hc]
    simp [backendCompileStatus, backendCompileLog, compileHistory]

theorem Main.compileShader_effect (B : Backend) (src : String) (s : State) :
    CompileEffect B .GL_VERTEX_SHADER src s (Main.compileShader B src s) := by
  refine ⟨rfl, ?_⟩
  obtain ⟨success, infoLog, ht, hc⟩ := Main.checkShaderSuccess_spec B
    (B.glCreateShader s.trace .GL_VERTEX_SHADER)
    (((s.call (.glCreateShader .GL_VERTEX_SHADER (B.glCreateShader s.trace .GL_VERTEX_SHADER))).call
      (.glShaderSource (B.glCreateShader s.trace .GL_VERTEX_SHADER) 1 src)).call
      (.glCompileShader (B.glCreateShader s.trace .GL_VERTEX_SHADER)))
  refine ⟨success, infoLog, ?_, ?_⟩
  · simp only [Main.compileShader, ht]; simp
  · simp only [Main.compileShader, hc]; simp

theorem Main.compileFragShader_effect (B : Backend) (src : String) (s : State) :
    CompileEffect B .GL_FRAGMENT_SHADER src s (Main.compileFragShader B src s) := by
  refine ⟨rfl, ?_⟩
  obtain ⟨success, infoLog, ht, hc⟩ := Main.checkShaderSuccess_spec B
    (B.glCreateShader s.trace .GL_FRAGMENT_SHADER)
    (((s.call (.glCreateShader .GL_FRAGMENT_SHADER
        (B.glCreateShader s.trace .GL_FRAGMENT_SHADER))).call
      (.glShaderSource (B.glCreateShader s.trace .GL_FRAGMENT_SHADER) 1 src)).call
      (.glCompileShader (B.glCreateShader s.trace .GL_FRAGMENT_SHADER)))
  refine ⟨success, infoLog, ?_, ?_⟩
  · simp only [Main.compileFragShader, ht]; simp
  · simp only [Main.compileFragShader, hc]; simp

/-- The two `checkShaderSuccess` functions are the same function. -/
theorem checkShaderSuccess_eq (B : Backend) (shader : Nat) (s : State) :
    HelloTriangle.checkShaderSuccess B shader s = Main.checkShaderSuccess B shader s := rfl

theorem HelloTriangle.compileShader_vertexType (B : Backend) (uninit : Nat) (src : String)
    (s : State) :
    HelloTriangle.compileShader B uninit src .vertexType s = Main.compileShader B src s := by
  simp [HelloTriangle.compileShader, Main.compileShader, checkShaderSuccess_eq]

theorem HelloTriangle.compileShader_fragType (B : Backend) (uninit : Nat) (src : String)
    (s : State) :
    HelloTriangle.compileShader B uninit src .fragType s = Main.compileFragShader B src s := by
  simp [HelloTriangle.compileShader, Main.compileFragShader, checkShaderSuccess_eq]

theorem HelloTriangle.compileShader_other (B : Backend) (uninit : Nat) (src : String)
    (shaderType : CharPtr) (s : State)
    (hv : shaderType ≠ .vertexType) (hf : shaderType ≠ .fragType) :
    (HelloTriangle.compileShader B uninit src shaderType s).1 = uninit ∧
    ∃ success infoLog,
      (HelloTriangle.compileShader B uninit src shaderType s).2.trace = s.trace ++
        [Call.glShaderSource uninit 1 src, Call.glCompileShader uninit,
          Call.glGetShaderiv uninit success]
        ++ (if success = 0 then [Call.glGetShaderInfoLog uninit 512 infoLog] else []) := by
  obtain ⟨success, infoLog, ht, -⟩ := Main.checkShaderSuccess_spec B uninit
    ((s.call (.glShaderSource uninit 1 src)).call (.glCompileShader uninit))
  refine ⟨by simp [HelloTriangle.compileShader, hv, hf], success, infoLog, ?_⟩
  have ht2 : (HelloTriangle.checkShaderSuccess B uninit
      ((s.call (.glShaderSource uninit 1 src)).call (.glCompileShader uninit))).trace = _ := ht
  simp only [HelloTriangle.compileShader, hv, hf, if_false, ht2]
  simp

theorem CompileEffect.calls {B : Backend} {kind : ShaderKind} {src : String} {s : State}
    {r : Nat × State} (h : CompileEffect B kind src s r) : CompileCalls B kind src s r := by
  obtain ⟨h1, success, infoLog, ht, -⟩ := h
  refine ⟨h1, success, (if success = 0 then [Call.glGetShaderInfoLog r.1 512 infoLog] else []),
    ?_, ?_⟩
  · exact callsSince_of_trace _ _ _ (by rw [ht, List.append_assoc])
  · by_cases h0 : success = 0
    · right; exact ⟨infoLog, by simp [h0]⟩
    · left; simp [h0]

theorem CompileEffect.rejected {B : Backend} {kind : ShaderKind} {src : String} {s : State}
    {r : Nat × State} (h : CompileEffect B kind src s r) (infoLog : String)
    (hr : RejectedWith s r infoLog) : coutSince s r.2 = [compileMessage r.1 infoLog] := by
  obtain ⟨-, success, log, ht, hc⟩ := h
  obtain ⟨h0, hl⟩ := hr
  rw [callsSince_of_trace _ _ _ (by rw [ht, List.append_assoc])] at h0 hl
  by_cases hs : success = 0
  · simp [hs] at hl
    rw [coutSince_of_cout _ _ _ hc]; simp [hs, hl]
  · simp [hs] at hl

/-! ## Claims about compilation -/

/-- C5: for every source text and both kinds, each of the four compile entry
points (`compileShader` with `vertexType` and with `fragType` in
`helloTriangle.cpp`, `compileShader` and `compileFragShader` in `main.cpp`)
calls `glCreateShader` with the matching kind, then `glShaderSource` with the
given text, `glCompileShader` and `glGetShaderiv`, all on the handle that
`glCreateShader` returned, and returns that handle. -/
theorem compile_call_sequence (B : Backend) (uninit : Nat) (src : String) (s : State) :
    CompileCalls B .GL_VERTEX_SHADER src s
      (HelloTriangle.compileShader B uninit src .vertexType s) ∧
    CompileCalls B .GL_FRAGMENT_SHADER src s
      (HelloTriangle.compileShader B uninit src .fragType s) ∧
    CompileCalls B .GL_VERTEX_SHADER src s (Main.compileShader B src s) ∧
    CompileCalls B .GL_FRAGMENT_SHADER src s (Main.compileFragShader B src s) := by
  rw [HelloTriangle.compileShader_vertexType, HelloTriangle.compileShader_fragType]
  exact ⟨(Main.compileShader_effect B src s).calls, (Main.compileFragShader_effect B src s).calls,
    (Main.compileShader_effect B src s).calls, (Main.compileFragShader_effect B src s).calls⟩

/-- C2: `checkShaderSuccess` (both files, every handle, every backend) reads
the compile status the backend reports for the handle, once; when that status
is zero it writes exactly one text to `std::cout`, the report
`ERROR::SHADER::<handle>::COMPILATION_FAILED` followed by the log of the
backend, and when the status is not zero it writes nothing.  Each of the four
compile entry points does the same for the status the backend reports to that
compilation and returns the handle `glCreateShader` produced.  Every function
is total, so no call aborts. -/
theorem compile_reports_once (B : Backend) (uninit shader : Nat) (src : String) (s : State) :
    StatusReport B shader s (Main.checkShaderSuccess B shader s) ∧
    StatusReport B shader s (HelloTriangle.checkShaderSuccess B shader s) ∧
    CompileReport B .GL_VERTEX_SHADER src s
      (HelloTriangle.compileShader B uninit src .vertexType s) ∧
    CompileReport B .GL_FRAGMENT_SHADER src s
      (HelloTriangle.compileShader B uninit src .fragType s) ∧
    CompileReport B .GL_VERTEX_SHADER src s (Main.compileShader B src s) ∧
    CompileReport B .GL_FRAGMENT_SHADER src s (Main.compileFragShader B src s) := by
  rw [HelloTriangle.compileShader_vertexType, HelloTriangle.compileShader_fragType,
    checkShaderSuccess_eq]
  exact ⟨Main.checkShaderSuccess_report B shader s, Main.checkShaderSuccess_report B shader s,
    Main.compileShader_report B src s, Main.compileFragShader_report B src s,
    Main.compileShader_report B src s, Main.compileFragShader_report B src s⟩

/-- C6, the claim as stated fails: with a backend that hands out the handle 1
and rejects with the log `syntax error`, the vertex compilation and the
fragment compilation of the same text write the same report, in both files, so
the report does not tell the kind. -/
theorem compile_message_kind_counterexample :
    RejectedWith State.initial (Main.compileShader rejectingBackend "void main()" State.initial)
      "syntax error" ∧
    RejectedWith State.initial
      (Main.compileFragShader rejectingBackend "void main()" State.initial) "syntax error" ∧
    coutSince State.initial (Main.compileShader rejectingBackend "void main()" State.initial).2
      = coutSince State.initial
          (Main.compileFragShader rejectingBackend "void main()" State.initial).2 ∧
    coutSince State.initial
        (HelloTriangle.compileShader rejectingBackend 0 "void main()" .vertexType State.initial).2
      = coutSince State.initial
          (HelloTriangle.compileShader rejectingBackend 0 "void main()" .fragType
            State.initial).2 := by
  refine ⟨⟨?_, ?_⟩, ⟨?_, ?_⟩, rfl, rfl⟩ <;> decide

/-- C6, amended: when a compilation is rejected, the one report written is
`compileMessage h log`, made of the numeric handle `h` and the backend log and
of nothing else; this holds for all four compile entry points, whatever the
kind. -/
theorem compile_message_carries_handle (B : Backend) (uninit : Nat) (src infoLog : String)
    (s : State) :
    (RejectedWith s (HelloTriangle.compileShader B uninit src .vertexType s) infoLog →
      coutSince s (HelloTriangle.compileShader B uninit src .vertexType s).2
        = [compileMessage (HelloTriangle.compileShader B uninit src .vertexType s).1 infoLog]) ∧
    (RejectedWith s (HelloTriangle.compileShader B uninit src .fragType s) infoLog →
      coutSince s (HelloTriangle.compileShader B uninit src .fragType s).2
        = [compileMessage (HelloTriangle.compileShader B uninit src .fragType s).1 infoLog]) ∧
    (RejectedWith s (Main.compileShader B src s) infoLog →
      coutSince s (Main.compileShader B src s).2
        = [compileMessage (Main.compileShader B src s).1 infoLog]) ∧
    (RejectedWith s (Main.compileFragShader B src s) infoLog →
      coutSince s (Main.compileFragShader B src s).2
        = [compileMessage (Main.compileFragShader B src s).1 infoLog]) := by
  rw [HelloTriangle.compileShader_vertexType, HelloTriangle.compileShader_fragType]
  exact ⟨(Main.compileShader_effect B src s).rejected infoLog,
    (Main.compileFragShader_effect B src s).rejected infoLog,
    (Main.compileShader_effect B src s).rejected infoLog,
    (Main.compileFragShader_effect B src s).rejected infoLog⟩

/-- C6, amended, at a concrete input: the rejecting backend, the text
`void main()`, all four entry points. -/
theorem compile_message_carries_handle_witness :
    coutSince State.initial
        (HelloTriangle.compileShader rejectingBackend 0 "void main()" .vertexType State.initial).2
      = [compileMessage 1 "syntax error"] ∧
    coutSince State.initial
        (HelloTriangle.compileShader rejectingBackend 0 "void main()" .fragType State.initial).2
      = [compileMessage 1 "syntax error"] ∧
    coutSince State.initial (Main.compileShader rejectingBackend "void main()" State.initial).2
      = [compileMessage 1 "syntax error"] ∧
    coutSince State.initial (Main.compileFragShader rejectingBackend "void main()" State.initial).2
      = [compileMessage 1 "syntax error"] :=
  ⟨(compile_message_carries_handle rejectingBackend 0 "void main()" "syntax error"
      State.initial).1 (by decide),
   (compile_message_carries_handle rejectingBackend 0 "void main()" "syntax error"
      State.initial).2.1 (by decide),
   (compile_message_carries_handle rejectingBackend 0 "void main()" "syntax error"
      State.initial).2.2.1 (by decide),
   (compile_message_carries_handle rejectingBackend 0 "void main()" "syntax error"
      State.initial).2.2.2 (by decide)⟩

/-- C7: `compileShader` of `helloTriangle.cpp` picks the kind by comparing the
address `shaderType` with the addresses of the two global arrays.  It calls
`glCreateShader` if and only if `shaderType` is `vertexType` or `fragType`; for
any other address (whatever text is stored there) it calls `glCreateShader` not
at all, and the handle it passes to `glShaderSource` and `glCompileShader` and
returns is the value of the uninitialised local. -/
theorem compileShader_pointer_identity (B : Backend) (uninit : Nat) (src : String)
    (shaderType : CharPtr) (s : State) :
    (createdKinds (callsSince s (HelloTriangle.compileShader B uninit src shaderType s).2) ≠ []
      ↔ shaderType = .vertexType ∨ shaderType = .fragType) ∧
    (shaderType ≠ .vertexType → shaderType ≠ .fragType →
      createdKinds (callsSince s (HelloTriangle.compileShader B uninit src shaderType s).2) = [] ∧
      (HelloTriangle.compileShader B uninit src shaderType s).1 = uninit ∧
      ∃ success rest,
        callsSince s (HelloTriangle.compileShader B uninit src shaderType s).2 =
          [Call.glShaderSource uninit 1 src, Call.glCompileShader uninit,
            Call.glGetShaderiv uninit success] ++ rest ∧
        (rest = [] ∨ ∃ infoLog, rest = [Call.glGetShaderInfoLog uninit 512 infoLog])) := by
  have hother : shaderType ≠ .vertexType → shaderType ≠ .fragType →
      createdKinds (callsSince s (HelloTriangle.compileShader B uninit src shaderType s).2) = [] ∧
      (HelloTriangle.compileShader B uninit src shaderType s).1 = uninit ∧
      ∃ success rest,
        callsSince s (HelloTriangle.compileShader B uninit src shaderType s).2 =
          [Call.glShaderSource uninit 1 src, Call.glCompileShader uninit,
            Call.glGetShaderiv uninit success] ++ rest ∧
        (rest = [] ∨ ∃ infoLog, rest = [Call.glGetShaderInfoLog uninit 512 infoLog]) := by
    intro hv hf
    obtain ⟨h1, success, infoLog, ht⟩ :=
      HelloTriangle.compileShader_other B uninit src shaderType s hv hf
    have hcalls := callsSince_of_trace s _ _ (by rw [ht, List.append_assoc])
    refine ⟨?_, h1, success,
      (if success = 0 then [Call.glGetShaderInfoLog uninit 512 infoLog] else []), hcalls, ?_⟩
    · rw [hcalls]
      by_cases h0 : success = 0 <;> simp [createdKinds, h0]
    · by_cases h0 : success = 0
      · right; exact ⟨infoLog, by simp [h0]⟩
      · left; simp [h0]
  refine ⟨?_, hother⟩
  constructor
  · intro hne
    by_contra hcon
    push_neg at hcon
    exact hne (hother hcon.1 hcon.2).1
  · rintro (rfl | rfl)
    · obtain ⟨-, success, rest, hc, -⟩ := (Main.compileShader_effect B src s).calls
      rw [HelloTriangle.compileShader_vertexType, hc]
      simp [createdKinds]
    · obtain ⟨-, success, rest, hc, -⟩ := (Main.compileFragShader_effect B src s).calls
      rw [HelloTriangle.compileShader_fragType, hc]
      simp [createdKinds]

/-- C7 at a concrete input: a buffer at another address holding the text
`vertex`, the same text as `vertexType`.  No shader is created, and the handle
used and returned is the uninitialised value, here 77. -/
theorem compileShader_pointer_identity_witness :
    (CharPtr.other 4096 "vertex").content = CharPtr.vertexType.content ∧
    createdKinds (callsSince State.initial (HelloTriangle.compileShader acceptingBackend 77
      "void main()" (CharPtr.other 4096 "vertex") State.initial).2) = [] ∧
    (HelloTriangle.compileShader acceptingBackend 77 "void main()"
      (CharPtr.other 4096 "vertex") State.initial).1 = 77 :=
  ⟨by decide,
   ((compileShader_pointer_identity acceptingBackend 77 "void main()"
      (CharPtr.other 4096 "vertex") State.initial).2 (by decide) (by decide)).1,
   ((compileShader_pointer_identity acceptingBackend 77 "void main()"
      (CharPtr.other 4096 "vertex") State.initial).2 (by decide) (by decide)).2.1⟩

/-- C8: the shader pipelines of the two files are the same functions.
`compileShader(src, vertexType)` of `helloTriangle.cpp` ends in the same state
(same calls, same output) and returns the same handle as `compileShader(src)`
of `main.cpp`; `compileShader(src, fragType)` the same as
`compileFragShader(src)`; and the two `shaderProgramBuild` agree on every pair
of arguments. -/
theorem pipelines_equivalent (B : Backend) (uninit : Nat) (src : String)
    (vertexShader fragShader : Loc) (s : State) :
    HelloTriangle.compileShader B uninit src .vertexType s = Main.compileShader B src s ∧
    HelloTriangle.compileShader B uninit src .fragType s = Main.compileFragShader B src s ∧
    HelloTriangle.shaderProgramBuild B vertexShader fragShader s
      = Main.shaderProgramBuild B vertexShader fragShader s :=
  ⟨HelloTriangle.compileShader_vertexType B uninit src s,
   HelloTriangle.compileShader_fragType B uninit src s, rfl⟩

/-! ## Linking -/

theorem State.store_mem_apply (s : State) (l x : Loc) (v : Nat) :
    (s.store l v).mem x = if x = l then v else s.mem x := rfl

@[simp] theorem State.store_call_mem (s : State) (c : Call) (l : Loc) (v : Nat) :
    ((s.call c).store l v).mem = (s.store l v).mem := rfl

@[simp] theorem State.ite_call_trace (c : Prop) [Decidable c] (s : State) (x : Call) :
    (if c then s.call x else s).trace = s.trace ++ (if c then [x] else []) := by
  split <;> simp

@[simp] theorem State.ite_call_cout (c : Prop) [Decidable c] (s : State) (x : Call) :
    (if c then s.call x else s).cout = s.cout := by
  split <;> simp

@[simp] theorem State.ite_call_mem (c : Prop) [Decidable c] (s : State) (x : Call) :
    (if c then s.call x else s).mem = s.mem := by
  split <;> simp

@[simp] theorem State.ite_call_shouldClose (c : Prop) [Decidable c] (s : State) (x : Call) :
    (if c then s.call x else s).shouldClose = s.shouldClose := by
  split <;> simp

/-- What `shaderProgramBuild` of `main.cpp` does: the calls it makes, the value
it returns, the output it writes and the variables it changes.  The handles it
attaches and deletes are read through the two pointers after the global
`shaderProgram` has been assigned. -/
theorem Main.shaderProgramBuild_spec (B : Backend) (vertexShader fragShader : Loc) (s : State) :
    (Main.shaderProgramBuild B vertexShader fragShader s).1 = B.glCreateProgram s.trace ∧
    (Main.shaderProgramBuild B vertexShader fragShader s).2.cout = s.cout ∧
    (Main.shaderProgramBuild B vertexShader fragShader s).2.mem
      = (s.store .shaderProgram (B.glCreateProgram s.trace)).mem ∧
    (Main.shaderProgramBuild B vertexShader fragShader s).2.shouldClose = s.shouldClose ∧
    ∃ success infoLog,
      (Main.shaderProgramBuild B vertexShader fragShader s).2.trace = s.trace ++
        ([Call.glCreateProgram (B.glCreateProgram s.trace),
          Call.glAttachShader (B.glCreateProgram s.trace)
            ((s.store .shaderProgram (B.glCreateProgram s.trace)).mem vertexShader),
          Call.glAttachShader (B.glCreateProgram s.trace)
            ((s.store .shaderProgram (B.glCreateProgram s.trace)).mem fragShader)]
        ++ [Call.glLinkProgram (B.glCreateProgram s.trace)]
        ++ ([Call.glGetProgramiv (B.glCreateProgram s.trace) success]
          ++ (if success = 0 then
                [Call.glGetProgramInfoLog (B.glCreateProgram s.trace) 512 infoLog] else [])
          ++ [Call.glUseProgram (B.glCreateProgram s.trace),
              Call.glDeleteShader
                ((s.store .shaderProgram (B.glCreateProgram s.trace)).mem vertexShader),
              Call.glDeleteShader
                ((s.store .shaderProgram (B.glCreateProgram s.trace)).mem fragShader)])) := by
  generalize hp : B.glCreateProgram s.trace = p
  refine ⟨?_, ?_, ?_, ?_, ?_⟩
  · simp [Main.shaderProgramBuild, hp]
  · simp [Main.shaderProgramBuild, hp]
  · simp [Main.shaderProgramBuild, hp]
  · simp [Main.shaderProgramBuild, hp]
  · refine ⟨B.glGetProgramiv (s.trace ++
      [Call.glCreateProgram p,
        Call.glAttachShader p ((s.store .shaderProgram p).mem vertexShader),
        Call.glAttachShader p ((s.store .shaderProgram p).mem fragShader),
        Call.glLinkProgram p]) p,
      B.glGetProgramInfoLog (s.trace ++
      [Call.glCreateProgram p,
        Call.glAttachShader p ((s.store .shaderProgram p).mem vertexShader),
        Call.glAttachShader p ((s.store .shaderProgram p).mem fragShader),
        Call.glLinkProgram p, Call.glGetProgramiv p (B.glGetProgramiv (s.trace ++
      [Call.glCreateProgram p,
        Call.glAttachShader p ((s.store .shaderProgram p).mem vertexShader),
        Call.glAttachShader p ((s.store .shaderProgram p).mem fragShader),
        Call.glLinkProgram p]) p)]) p 512, ?_⟩
    simp [Main.shaderProgramBuild, hp]

theorem Main.shaderProgramBuild_calls (B : Backend) (vertexShader fragShader : Loc) (s : State)
    (hv : vertexShader ≠ .shaderProgram) (hf : fragShader ≠ .shaderProgram) :
    ∃ success infoLog,
      callsSince s (Main.shaderProgramBuild B vertexShader fragShader s).2 =
        [Call.glCreateProgram (Main.shaderProgramBuild B vertexShader fragShader s).1,
          Call.glAttachShader (Main.shaderProgramBuild B vertexShader fragShader s).1
            (s.mem vertexShader),
          Call.glAttachShader (Main.shaderProgramBuild B vertexShader fragShader s).1
            (s.mem fragShader)]
        ++ [Call.glLinkProgram (Main.shaderProgramBuild B vertexShader fragShader s).1]
        ++ ([Call.glGetProgramiv (Main.shaderProgramBuild B vertexShader fragShader s).1 success]
          ++ (if success = 0 then
                [Call.glGetProgramInfoLog (Main.shaderProgramBuild B vertexShader fragShader s).1
                  512 infoLog] else [])
          ++ [Call.glUseProgram (Main.shaderProgramBuild B vertexShader fragShader s).1,
              Call.glDeleteShader (s.mem vertexShader),
              Call.glDeleteShader (s.mem fragShader)]) := by
  obtain ⟨h1, -, -, -, success, infoLog, ht⟩ :=
    Main.shaderProgramBuild_spec B vertexShader fragShader s
  refine ⟨success, infoLog, ?_⟩
  rw [h1]
  rw [State.store_mem_other _ _ _ _ hv, State.store_mem_other _ _ _ _ hf] at ht
  exact callsSince_of_trace _ _ _ ht

theorem Main.shaderProgramBuild_releases (B : Backend) (vertexShader fragShader : Loc)
    (s : State) (hv : vertexShader ≠ .shaderProgram) (hf : fragShader ≠ .shaderProgram)
    (hne : s.mem vertexShader ≠ s.mem fragShader) :
    ReleasesOnce s (Main.shaderProgramBuild B vertexShader fragShader s)
      (s.mem vertexShader) (s.mem fragShader) := by
  obtain ⟨success, infoLog, hc⟩ := Main.shaderProgramBuild_calls B vertexShader fragShader s hv hf
  refine ⟨_, _, hc, ?_, ?_, ?_, ?_, ?_⟩
  · simp [deletedShaders]
  · by_cases h0 : success = 0 <;> simp [deletedShaders, h0]
  · rw [hc]
    by_cases h0 : success = 0 <;> simp [List.count_cons, h0, hne.symm]
  · rw [hc]
    by_cases h0 : success = 0 <;> simp [List.count_cons, h0, hne]
  · rw [hc]
    by_cases h0 : success = 0 <;> simp [deletedShaders, h0, hne]

theorem Main.shaderProgramBuild_activates (B : Backend) (vertexShader fragShader : Loc)
    (s : State) :
    ActivatesProgram B s (Main.shaderProgramBuild B vertexShader fragShader s) := by
  obtain ⟨h1, -, hm, -, success, infoLog, ht⟩ :=
    Main.shaderProgramBuild_spec B vertexShader fragShader s
  have hcur : currentProgram (Main.shaderProgramBuild B vertexShader fragShader s).2.trace
      = some (Main.shaderProgramBuild B vertexShader fragShader s).1 := by
    rw [ht, h1]
    by_cases h0 : success = 0 <;>
      simp [currentProgram, usedPrograms, h0, List.filterMap_append, List.getLast?_append]
  have hmem : (Main.shaderProgramBuild B vertexShader fragShader s).2.mem Loc.shaderProgram
      = (Main.shaderProgramBuild B vertexShader fragShader s).1 := by
    rw [hm, h1]; simp
  rw [← h1] at ht
  have hc := callsSince_of_trace _ _ _ ht
  refine ⟨h1, hmem, hcur, _, _, hc, ?_, ?_, ?_⟩
  · simp
  · simp [usedPrograms]
  · by_cases h0 : success = 0 <;> simp [usedPrograms, h0]

/-! ## Claims about linking -/

/-- C1, the claim as stated fails.  When both inputs hold the same handle (5
here) `glDeleteShader` is called on it twice; this happens in the programs
themselves when both `glCreateShader` calls fail and return 0.  And when the
first pointer is the address of the global `shaderProgram` (holding 7 here),
the global is overwritten before it is read, so the input handle 7 is never
deleted and the new program handle 3 is passed to `glDeleteShader` instead. -/
theorem shaderProgramBuild_release_counterexample :
    deletedShaders (callsSince State.initial (Main.mainSetup failingBackend State.initial))
      = [0, 0] ∧
    deletedShaders (callsSince State.initial
      (HelloTriangle.mainSetup failingBackend 8 0 State.initial)) = [0, 0] ∧
    (callsSince sameHandleState (Main.shaderProgramBuild acceptingBackend .vertexShader
      .fragShader sameHandleState).2).count (Call.glDeleteShader 5) = 2 ∧
    ¬ (deletedShaders (callsSince sameHandleState (Main.shaderProgramBuild acceptingBackend
      .vertexShader .fragShader sameHandleState).2)).Nodup ∧
    (callsSince sameHandleState (HelloTriangle.shaderProgramBuild acceptingBackend .vertexShader
      .fragShader sameHandleState).2).count (Call.glDeleteShader 5) = 2 ∧
    staleProgramState.mem .shaderProgram = 7 ∧
    (callsSince staleProgramState (Main.shaderProgramBuild rejectingBackend .shaderProgram
      .fragShader staleProgramState).2).count (Call.glDeleteShader 7) = 0 ∧
    deletedShaders (callsSince staleProgramState (Main.shaderProgramBuild rejectingBackend
      .shaderProgram .fragShader staleProgramState).2) = [3, 2] := by
  refine ⟨?_, ?_, ?_, ?_, ?_, ?_, ?_, ?_⟩ <;> decide

/-- C1, amended: for every backend (so for both link outcomes) and every pair
of input pointers other than the address of the global `shaderProgram` that
hold two different handles `v` and `f`, one call of `shaderProgramBuild` (either
file) deletes no shader before `glLinkProgram`, deletes exactly `v` and `f`
after it, each by exactly one `glDeleteShader` call, and passes no handle to
`glDeleteShader` twice. -/
theorem shaderProgramBuild_releases_each_once (B : Backend) (vertexShader fragShader : Loc)
    (s : State) (hv : vertexShader ≠ .shaderProgram) (hf : fragShader ≠ .shaderProgram)
    (hne : s.mem vertexShader ≠ s.mem fragShader) :
    ReleasesOnce s (HelloTriangle.shaderProgramBuild B vertexShader fragShader s)
      (s.mem vertexShader) (s.mem fragShader) ∧
    ReleasesOnce s (Main.shaderProgramBuild B vertexShader fragShader s)
      (s.mem vertexShader) (s.mem fragShader) :=
  ⟨Main.shaderProgramBuild_releases B vertexShader fragShader s hv hf hne,
   Main.shaderProgramBuild_releases B vertexShader fragShader s hv hf hne⟩

/-- C1, amended, at a concrete input: the call of the two programs,
`shaderProgramBuild(&vertexShader, &fragShader)`, with the handles 1 and 2, on a
backend whose link fails. -/
theorem shaderProgramBuild_releases_each_once_witness :
    ReleasesOnce twoShadersState
      (HelloTriangle.shaderProgramBuild rejectingBackend .vertexShader .fragShader
        twoShadersState) 1 2 ∧
    ReleasesOnce twoShadersState
      (Main.shaderProgramBuild rejectingBackend .vertexShader .fragShader twoShadersState) 1 2 :=
  shaderProgramBuild_releases_each_once rejectingBackend .vertexShader .fragShader
    twoShadersState (by decide) (by decide) (by decide)

/-- C3, the defect: `shaderProgramBuild` (either file) writes nothing to
`std::cout`, whatever the backend answers.  At the rejecting backend the link
status read is 0 and the log `link error` is fetched into `infoLog`, and still
nothing is written. -/
theorem link_failure_not_reported :
    (∀ (B : Backend) (vertexShader fragShader : Loc) (s : State),
      coutSince s (Main.shaderProgramBuild B vertexShader fragShader s).2 = [] ∧
      coutSince s (HelloTriangle.shaderProgramBuild B vertexShader fragShader s).2 = []) ∧
    Call.glGetProgramiv 3 0 ∈ callsSince twoShadersState
      (Main.shaderProgramBuild rejectingBackend .vertexShader .fragShader twoShadersState).2 ∧
    Call.glGetProgramInfoLog 3 512 "link error" ∈ callsSince twoShadersState
      (Main.shaderProgramBuild rejectingBackend .vertexShader .fragShader twoShadersState).2 ∧
    (Main.shaderProgramBuild rejectingBackend .vertexShader .fragShader twoShadersState).2.cout
      = [] := by
  refine ⟨?_, by decide, by decide, by decide⟩
  intro B vertexShader fragShader s
  have h := (Main.shaderProgramBuild_spec B vertexShader fragShader s).2.1
  have hh : (HelloTriangle.shaderProgramBuild B vertexShader fragShader s).2.cout = s.cout := h
  exact ⟨coutSince_of_cout _ _ _ (by rw [h]; simp), coutSince_of_cout _ _ _ (by rw [hh]; simp)⟩

/-- C4: for every backend (so for both link outcomes) and every pair of
arguments, `shaderProgramBuild` (either file) returns the handle `p` that
`glCreateProgram` gave, leaves it in the global `shaderProgram`, and calls
`glUseProgram` exactly once, after `glLinkProgram`, with `p`, so that `p` is the
program of the most recent `glUseProgram` when the call returns. -/
theorem shaderProgramBuild_activates_program (B : Backend) (vertexShader fragShader : Loc)
    (s : State) :
    ActivatesProgram B s (HelloTriangle.shaderProgramBuild B vertexShader fragShader s) ∧
    ActivatesProgram B s (Main.shaderProgramBuild B vertexShader fragShader s) :=
  ⟨Main.shaderProgramBuild_activates B vertexShader fragShader s,
   Main.shaderProgramBuild_activates B vertexShader fragShader s⟩

/-! ## The render loop -/

theorem foldl_callback (l : List (Int × Int)) (s : State) :
    (l.foldl (fun st wh => framebuffer_size_callback wh.1 wh.2 st) s).trace
        = s.trace ++ viewportCalls l ∧
    (l.foldl (fun st wh => framebuffer_size_callback wh.1 wh.2 st) s).cout = s.cout ∧
    (l.foldl (fun st wh => framebuffer_size_callback wh.1 wh.2 st) s).mem = s.mem ∧
    (l.foldl (fun st wh => framebuffer_size_callback wh.1 wh.2 st) s).shouldClose
        = s.shouldClose := by
  induction l generalizing s with
  | nil => simp [viewportCalls]
  | cons x xs ih =>
    obtain ⟨h1, h2, h3, h4⟩ := ih (framebuffer_size_callback x.1 x.2 s)
    simp only [List.foldl_cons]
    refine ⟨?_, ?_, ?_, ?_⟩
    · rw [h1]; simp [framebuffer_size_callback, viewportCalls]
    · rw [h2]; simp [framebuffer_size_callback]
    · rw [h3]; simp [framebuffer_size_callback]
    · rw [h4]; simp [framebuffer_size_callback]

theorem glfwPollEvents_spec (B : Backend) (s : State) :
    (glfwPollEvents B s).trace
        = s.trace ++ ([Call.glfwPollEvents] ++ viewportCalls (B.glfwPollEvents s.trace).resized) ∧
    (glfwPollEvents B s).cout = s.cout ∧
    (glfwPollEvents B s).mem = s.mem ∧
    (glfwPollEvents B s).shouldClose
        = (s.shouldClose || (B.glfwPollEvents s.trace).closeRequested) := by
  obtain ⟨h1, h2, h3, h4⟩ := foldl_callback (B.glfwPollEvents s.trace).resized
    (s.call .glfwPollEvents)
  unfold glfwPollEvents
  by_cases hc : (B.glfwPollEvents s.trace).closeRequested = true
  · simp [hc, h1, h2, h3]
  · simp [hc, h1, h2, h3, h4]

theorem HelloTriangle.processInput_spec (B : Backend) (s : State) :
    (HelloTriangle.processInput B s).trace = s.trace ++ ([Call.glfwGetKey (B.glfwGetKey s.trace)]
      ++ (if B.glfwGetKey s.trace = .GLFW_PRESS then [Call.glfwSetWindowShouldClose true]
          else [])) ∧
    (HelloTriangle.processInput B s).cout = s.cout ∧
    (HelloTriangle.processInput B s).mem = s.mem ∧
    (HelloTriangle.processInput B s).shouldClose
      = (s.shouldClose || decide (B.glfwGetKey s.trace = .GLFW_PRESS)) := by
  unfold HelloTriangle.processInput
  by_cases hk : B.glfwGetKey s.trace = .GLFW_PRESS
  · simp [hk, glfwSetWindowShouldClose]
  · simp [hk]

theorem processInput_eq (B : Backend) (s : State) :
    Main.processInput B s = HelloTriangle.processInput B s := rfl

theorem drawWindowBody_eq (B : Backend) (shaderProgram VAO : Loc) (s : State) :
    Main.drawWindowBody B shaderProgram VAO s = HelloTriangle.drawBody B shaderProgram VAO s :=
  rfl

theorem drawWindow_eq (B : Backend) (fuel : Nat) (shaderProgram VAO : Loc) (s : State) :
    Main.drawWindow B fuel shaderProgram VAO s = HelloTriangle.draw B fuel shaderProgram VAO s := by
  induction fuel generalizing s with
  | zero => rfl
  | succ n ih =>
    simp only [Main.drawWindow, HelloTriangle.draw, drawWindowBody_eq, ih]

theorem viewportCalls_mem (l : List (Int × Int)) (c : Call) (h : c ∈ viewportCalls l) :
    ∃ w h, c = Call.glViewport 0 0 w h := by
  simp only [viewportCalls, List.mem_map] at h
  obtain ⟨wh, -, rfl⟩ := h
  exact ⟨wh.1, wh.2, rfl⟩

theorem viewportCalls_count (l : List (Int × Int)) (c : Call)
    (hc : ∀ w h, c ≠ Call.glViewport 0 0 w h) : (viewportCalls l).count c = 0 := by
  apply List.count_eq_zero_of_not_mem
  intro hmem
  obtain ⟨w, h, rfl⟩ := viewportCalls_mem l c hmem
  exact hc w h rfl

theorem viewportCalls_not_mem (l : List (Int × Int)) (c : Call)
    (hc : ∀ w h, c ≠ Call.glViewport 0 0 w h) : c ∉ viewportCalls l := by
  intro hmem
  obtain ⟨w, h, rfl⟩ := viewportCalls_mem l c hmem
  exact hc w h rfl

theorem viewportCalls_closeTests (l : List (Int × Int)) : closeTests (viewportCalls l) = [] := by
  simp [viewportCalls, closeTests]

theorem viewportCalls_drawCalls (l : List (Int × Int)) : drawCalls (viewportCalls l) = [] := by
  simp [viewportCalls, drawCalls]

theorem viewportCalls_uploadSizes (l : List (Int × Int)) :
    uploadSizes (viewportCalls l) = [] := by
  simp [viewportCalls, uploadSizes]

theorem isFrame_frameCalls (key : KeyAction) (program array : Nat)
    (resized : List (Int × Int)) : IsFrame (frameCalls key program array resized) := by
  have hv := viewportCalls_closeTests resized
  have hd := viewportCalls_drawCalls resized
  have hu := viewportCalls_uploadSizes resized
  have c1 := viewportCalls_count resized Call.glClear (by intro w h; simp)
  have c2 := viewportCalls_count resized Call.glfwSwapBuffers (by intro w h; simp)
  have n1 := viewportCalls_not_mem resized Call.glfwTerminate (by intro w h; simp)
  have n2 := viewportCalls_not_mem resized (Call.glfwSetWindowShouldClose false)
    (by intro w h; simp)
  have n3 := viewportCalls_not_mem resized (Call.glfwSetWindowShouldClose true)
    (by intro w h; simp)
  have n4 := viewportCalls_not_mem resized (Call.glfwGetKey .GLFW_PRESS) (by intro w h; simp)
  unfold closeTests at hv
  unfold drawCalls at hd
  unfold uploadSizes at hu
  refine ⟨?_, ?_, ?_, ?_, ?_, ?_, ?_, ?_, ?_, ?_⟩
  · cases key <;> simp [frameCalls, closeTests, List.filterMap_append, hv]
  · simp [frameCalls]
  · refine ⟨[Call.glfwWindowShouldClose false, Call.glfwGetKey key]
      ++ (if key = .GLFW_PRESS then [Call.glfwSetWindowShouldClose true] else [])
      ++ [Call.glClearColor 2 3 3 10],
      [Call.glUseProgram program, Call.glBindVertexArray array], [],
      [Call.glfwPollEvents] ++ viewportCalls resized, ?_⟩
    simp [frameCalls]
  · cases key <;> simp [frameCalls, List.count_cons, c1]
  · cases key <;> simp [frameCalls, drawCalls, List.filterMap_append, hd]
  · cases key <;> simp [frameCalls, List.count_cons, c2]
  · cases key <;> simp [frameCalls, n1]
  · cases key <;> simp [frameCalls, uploadSizes, List.filterMap_append, hu]
  · cases key <;> simp [frameCalls, n2]
  · cases key <;> simp [frameCalls, n3, n4]

theorem HelloTriangle.drawRound_spec (B : Backend) (shaderProgram VAO : Loc) (s : State)
    (hs : s.shouldClose = false) :
    (HelloTriangle.drawRound B shaderProgram VAO s).trace
      = s.trace ++ backendFrame B (s.mem shaderProgram) (s.mem VAO) s.trace ∧
    (HelloTriangle.drawRound B shaderProgram VAO s).mem = s.mem := by
  obtain ⟨p1, -, p3, -⟩ := HelloTriangle.processInput_spec B
    (s.call (.glfwWindowShouldClose s.shouldClose))
  have hX : HelloTriangle.drawRound B shaderProgram VAO s = glfwPollEvents B
      (((((((HelloTriangle.processInput B (s.call (.glfwWindowShouldClose s.shouldClose))).call
        (.glClearColor 2 3 3 10)).call .glClear).call
        (.glUseProgram ((HelloTriangle.processInput B
          (s.call (.glfwWindowShouldClose s.shouldClose))).mem shaderProgram))).call
        (.glBindVertexArray ((HelloTriangle.processInput B
          (s.call (.glfwWindowShouldClose s.shouldClose))).mem VAO))).call
        (.glDrawArrays .GL_TRIANGLES 0 3)).call .glfwSwapBuffers) := rfl
  rw [hX, (glfwPollEvents_spec B _).1, (glfwPollEvents_spec B _).2.2.1]
  simp only [hs] at p1 p3
  refine ⟨?_, by simp [p3, hs]⟩
  simp [p1, p3, hs, frameCalls, backendFrame, frameHead]

theorem HelloTriangle.draw_step (B : Backend) (fuel : Nat) (shaderProgram VAO : Loc) (s : State)
    (hs : s.shouldClose = false) :
    HelloTriangle.draw B (fuel + 1) shaderProgram VAO s
      = HelloTriangle.draw B fuel shaderProgram VAO
          (HelloTriangle.drawRound B shaderProgram VAO s) := by
  simp [HelloTriangle.draw, HelloTriangle.drawRound, hs]

theorem HelloTriangle.draw_stop (B : Backend) (fuel : Nat) (shaderProgram VAO : Loc) (s : State)
    (hs : s.shouldClose = true) :
    HelloTriangle.draw B (fuel + 1) shaderProgram VAO s
      = some ((s.call (.glfwWindowShouldClose true)).call .glfwTerminate) := by
  simp [HelloTriangle.draw, hs]

theorem FirstCloseAt.zero {round : State → State} {s : State} (h : FirstCloseAt round s 0) :
    s.shouldClose = true := h.2

theorem FirstCloseAt.head {round : State → State} {s : State} {k : Nat}
    (h : FirstCloseAt round s (k + 1)) : s.shouldClose = false :=
  h.1 0 (Nat.succ_pos k)

theorem FirstCloseAt.tail {round : State → State} {s : State} {k : Nat}
    (h : FirstCloseAt round s (k + 1)) : FirstCloseAt round (round s) k := by
  refine ⟨fun j hj => ?_, ?_⟩
  · have := h.1 (j + 1) (Nat.succ_lt_succ hj)
    rwa [Function.iterate_succ_apply] at this
  · have := h.2
    rwa [Function.iterate_succ_apply] at this

theorem HelloTriangle.draw_runs (B : Backend) (shaderProgram VAO : Loc) :
    ∀ (k : Nat) (s : State) (fuel : Nat),
      FirstCloseAt (HelloTriangle.drawRound B shaderProgram VAO) s k → k < fuel →
      ∃ (s2 : State),
        HelloTriangle.draw B fuel shaderProgram VAO s = some s2 ∧
        s2.trace = s.trace
          ++ ((backendFrames B (s.mem shaderProgram) (s.mem VAO) k s.trace).flatten
            ++ [Call.glfwWindowShouldClose true, Call.glfwTerminate]) := by
  intro k
  induction k with
  | zero =>
    intro s fuel h hfuel
    obtain ⟨f, rfl⟩ : ∃ f, fuel = f + 1 := ⟨fuel - 1, by omega⟩
    refine ⟨_, HelloTriangle.draw_stop B f shaderProgram VAO s h.zero, ?_⟩
    simp [backendFrames]
  | succ k ih =>
    intro s fuel h hfuel
    obtain ⟨f, rfl⟩ : ∃ f, fuel = f + 1 := ⟨fuel - 1, by omega⟩
    obtain ⟨s2, hrun, htrace⟩ :=
      ih (HelloTriangle.drawRound B shaderProgram VAO s) f h.tail (by omega)
    obtain ⟨hfr, hmem⟩ := HelloTriangle.drawRound_spec B shaderProgram VAO s h.head
    refine ⟨s2, ?_, ?_⟩
    · rw [HelloTriangle.draw_step B f shaderProgram VAO s h.head]; exact hrun
    · rw [htrace, hmem, hfr]; simp [backendFrames]

theorem backendFrames_length (B : Backend) (program array : Nat) :
    ∀ (k : Nat) (t : List Call), (backendFrames B program array k t).length = k := by
  intro k
  induction k with
  | zero => intro t; rfl
  | succ k ih => intro t; simp [backendFrames, ih]

theorem backendFrames_isFrame (B : Backend) (program array : Nat) :
    ∀ (k : Nat) (t : List Call), ∀ fr ∈ backendFrames B program array k t, IsFrame fr := by
  intro k
  induction k with
  | zero => intro t fr hfr; cases hfr
  | succ k ih =>
    intro t fr hfr
    simp only [backendFrames, List.mem_cons] at hfr
    rcases hfr with rfl | hfr
    · exact isFrame_frameCalls _ _ _ _
    · exact ih _ fr hfr

theorem HelloTriangle.draw_runsFrames (B : Backend) (shaderProgram VAO : Loc) (s : State)
    (k fuel : Nat) (h : FirstCloseAt (HelloTriangle.drawRound B shaderProgram VAO) s k)
    (hfuel : k < fuel) :
    RunsFrames B (s.mem shaderProgram) (s.mem VAO)
      (HelloTriangle.draw B fuel shaderProgram VAO s) s k := by
  obtain ⟨s2, hrun, htrace⟩ := HelloTriangle.draw_runs B shaderProgram VAO k s fuel h hfuel
  exact ⟨s2, _, hrun, backendFrames_length B _ _ k s.trace,
    backendFrames_isFrame B _ _ k s.trace, callsSince_of_trace _ _ _ htrace, rfl⟩

theorem drawWindowRound_eq (B : Backend) (shaderProgram VAO : Loc) :
    Main.drawWindowRound B shaderProgram VAO = HelloTriangle.drawRound B shaderProgram VAO := rfl

theorem HelloTriangle.processInput_effect (B : Backend) (s : State) :
    ProcessInputEffect B s (HelloTriangle.processInput B s) := by
  obtain ⟨h1, -, h3, h4⟩ := HelloTriangle.processInput_spec B s
  have hc := callsSince_of_trace _ _ _ h1
  refine ⟨hc, ?_, h4, h3⟩
  rw [hc]
  by_cases hk : B.glfwGetKey s.trace = .GLFW_PRESS <;> simp [hk]

/-! ## Claim about the render loop -/

/-- C10: if the close flag of the window is first seen raised at loop test
number `k + 1`, then the render loop (`draw` in `helloTriangle.cpp`,
`drawWindow` in `main.cpp`), given more than `k` units of fuel, returns, and the
calls it made are exactly `k` frames followed by the last loop test and one
`glfwTerminate`; every frame has exactly one `glClear`, then exactly one
`glDrawArrays(GL_TRIANGLES, 0, 3)`, then exactly one `glfwSwapBuffers`, and no
`glfwTerminate`.  The frames are the ones the backend brings about: the key
recorded in a frame is the answer of `glfwGetKey`, and
`glfwSetWindowShouldClose(window, true)` is called in it exactly when that
answer is `GLFW_PRESS`.  `processInput` (both files, every state) calls
`glfwSetWindowShouldClose(window, true)` if and only if the backend reports the
escape key pressed, and the flag afterwards is raised exactly when it was raised
before or the key is pressed. -/
theorem render_loop_runs_k_frames (B : Backend) (shaderProgram VAO : Loc) (s : State)
    (k fuel : Nat)
    (hdraw : FirstCloseAt (HelloTriangle.drawRound B shaderProgram VAO) s k)
    (hdrawWindow : FirstCloseAt (Main.drawWindowRound B shaderProgram VAO) s k)
    (hfuel : k < fuel) :
    RunsFrames B (s.mem shaderProgram) (s.mem VAO)
      (HelloTriangle.draw B fuel shaderProgram VAO s) s k ∧
    RunsFrames B (s.mem shaderProgram) (s.mem VAO)
      (Main.drawWindow B fuel shaderProgram VAO s) s k ∧
    (∀ s0 : State, ProcessInputEffect B s0 (HelloTriangle.processInput B s0)) ∧
    (∀ s0 : State, ProcessInputEffect B s0 (Main.processInput B s0)) := by
  refine ⟨HelloTriangle.draw_runsFrames B shaderProgram VAO s k fuel hdraw hfuel, ?_,
    HelloTriangle.processInput_effect B, HelloTriangle.processInput_effect B⟩
  rw [drawWindow_eq]
  rw [drawWindowRound_eq] at hdrawWindow
  exact HelloTriangle.draw_runsFrames B shaderProgram VAO s k fuel hdrawWindow hfuel

/-- C10 at a concrete input: on a backend that reports the escape key up in the
first frame and down in the second, the flag is first seen raised at the third
loop test, and both loops run two frames with fuel 3; `processInput` makes the
close request in the second frame only. -/
theorem render_loop_runs_k_frames_witness :
    RunsFrames escapeLaterBackend 0 0
      (HelloTriangle.draw escapeLaterBackend 3 .shaderProgram .VAO State.initial)
      State.initial 2 ∧
    RunsFrames escapeLaterBackend 0 0
      (Main.drawWindow escapeLaterBackend 3 .shaderProgram .VAO State.initial)
      State.initial 2 ∧
    (∀ s0 : State,
      ProcessInputEffect escapeLaterBackend s0 (HelloTriangle.processInput escapeLaterBackend s0)) ∧
    (∀ s0 : State,
      ProcessInputEffect escapeLaterBackend s0 (Main.processInput escapeLaterBackend s0)) :=
  render_loop_runs_k_frames escapeLaterBackend .shaderProgram .VAO State.initial 2 3
    (by decide) (by decide) (by decide)

/-! ## Buffer uploads -/

theorem uploadSizes_append (a b : List Call) :
    uploadSizes (a ++ b) = uploadSizes a ++ uploadSizes b := by
  simp [uploadSizes, List.filterMap_append]

theorem Uploads.trans {s s1 s2 : State} {X Y : List Nat} (h1 : Uploads s s1 X)
    (h2 : Uploads s1 s2 Y) : Uploads s s2 (X ++ Y) := by
  obtain ⟨d1, e1, u1⟩ := h1
  obtain ⟨d2, e2, u2⟩ := h2
  exact ⟨d1 ++ d2, by rw [e2, e1, List.append_assoc], by rw [uploadSizes_append, u1, u2]⟩

theorem Uploads.store {s s2 : State} {X : List Nat} (h : Uploads s s2 X) (l : Loc) (v : Nat) :
    Uploads s (s2.store l v) X := h

theorem Uploads.sizes {s s2 : State} {X : List Nat} (h : Uploads s s2 X) :
    uploadSizes (callsSince s s2) = X := by
  obtain ⟨d, e, u⟩ := h
  rw [callsSince_of_trace _ _ _ e, u]

theorem HelloTriangle.generateVBO_uploads (B : Backend) (sizeofFloatPtr : Nat) (s : State) :
    Uploads s (HelloTriangle.generateVBO B sizeofFloatPtr s) [sizeofFloatPtr] := by
  refine ⟨[Call.glGenBuffers 1 (B.glGenBuffers s.trace), Call.glBindBuffer (B.glGenBuffers s.trace),
    Call.glBufferData sizeofFloatPtr], ?_, ?_⟩
  · simp [HelloTriangle.generateVBO]
  · simp [uploadSizes]

theorem Main.linkVertexAttribute_spec (B : Backend) (shaderProgram VBO VAO : Loc) (s : State) :
    ∃ a b, (Main.linkVertexAttribute B shaderProgram VBO VAO s).trace = s.trace ++
      (a ++ [Call.glBufferData sizeofVertices, Call.glVertexAttribPointer 0 3 (3 * sizeofFloat) 0]
        ++ b) ∧ uploadSizes a = [] ∧ uploadSizes b = [] := by
  refine ⟨[Call.glGenVertexArrays 1 (B.glGenVertexArrays s.trace),
      Call.glBindVertexArray (B.glGenVertexArrays s.trace),
      Call.glBindBuffer ((s.store VAO (B.glGenVertexArrays s.trace)).mem VBO)],
    [Call.glEnableVertexAttribArray 0,
      Call.glUseProgram ((s.store VAO (B.glGenVertexArrays s.trace)).mem shaderProgram),
      Call.glBindVertexArray (B.glGenVertexArrays s.trace)], ?_, ?_, ?_⟩
  · simp [Main.linkVertexAttribute]
  · simp [uploadSizes]
  · simp [uploadSizes]

theorem Main.linkVertexAttribute_uploads (B : Backend) (shaderProgram VBO VAO : Loc)
    (s : State) :
    Uploads s (Main.linkVertexAttribute B shaderProgram VBO VAO s) [sizeofVertices] := by
  obtain ⟨a, b, ht, ha, hb⟩ := Main.linkVertexAttribute_spec B shaderProgram VBO VAO s
  refine ⟨_, ht, ?_⟩
  rw [uploadSizes_append, uploadSizes_append, ha, hb]
  simp [uploadSizes]

theorem linkVertexAttribute_eq (B : Backend) (shaderProgram VBO VAO : Loc) (s : State) :
    HelloTriangle.linkVertexAttribute B shaderProgram VBO VAO s
      = Main.linkVertexAttribute B shaderProgram VBO VAO s := rfl

theorem CompileEffect.uploads {B : Backend} {kind : ShaderKind} {src : String} {s : State}
    {r : Nat × State} (h : CompileEffect B kind src s r) : Uploads s r.2 [] := by
  obtain ⟨-, success, infoLog, ht, -⟩ := h
  refine ⟨_, by rw [ht, List.append_assoc], ?_⟩
  by_cases h0 : success = 0 <;> simp [uploadSizes, h0]

theorem Main.shaderProgramBuild_uploads (B : Backend) (vertexShader fragShader : Loc)
    (s : State) : Uploads s (Main.shaderProgramBuild B vertexShader fragShader s).2 [] := by
  obtain ⟨-, -, -, -, success, infoLog, ht⟩ :=
    Main.shaderProgramBuild_spec B vertexShader fragShader s
  refine ⟨_, ht, ?_⟩
  by_cases h0 : success = 0 <;> simp [uploadSizes, h0]

theorem Main.mainSetup_uploads (B : Backend) (s : State) :
    Uploads s (Main.mainSetup B s) [sizeofVertices, sizeofVertices] := by
  let s3 : State := (((s.call (.glGenBuffers 1 (B.glGenBuffers s.trace))).store .VBO
    (B.glGenBuffers s.trace)).call (.glBindBuffer (B.glGenBuffers s.trace))).call
    (.glBufferData sizeofVertices)
  have h1 : Uploads s s3 [sizeofVertices] :=
    ⟨[Call.glGenBuffers 1 (B.glGenBuffers s.trace), Call.glBindBuffer (B.glGenBuffers s.trace),
      Call.glBufferData sizeofVertices], by simp [s3], by simp [uploadSizes]⟩
  let s4 : State := (Main.compileShader B Main.vertexShaderSource s3).2.store .vertexShader
    (Main.compileShader B Main.vertexShaderSource s3).1
  have h2 : Uploads s s4 ([sizeofVertices] ++ []) :=
    Uploads.store (Uploads.trans h1
      (CompileEffect.uploads (Main.compileShader_effect B Main.vertexShaderSource s3))) _ _
  let s5 : State := (Main.compileFragShader B Main.fragShaderSource s4).2.store .fragShader
    (Main.compileFragShader B Main.fragShaderSource s4).1
  have h3 : Uploads s s5 ([sizeofVertices] ++ [] ++ []) :=
    Uploads.store (Uploads.trans h2
      (CompileEffect.uploads (Main.compileFragShader_effect B Main.fragShaderSource s4))) _ _
  let s6 : State := (Main.shaderProgramBuild B .vertexShader .fragShader s5).2.store
    .shaderProgram (Main.shaderProgramBuild B .vertexShader .fragShader s5).1
  have h4 : Uploads s s6 ([sizeofVertices] ++ [] ++ [] ++ []) :=
    Uploads.store (Uploads.trans h3
      (Main.shaderProgramBuild_uploads B .vertexShader .fragShader s5)) _ _
  exact Uploads.trans h4 (Main.linkVertexAttribute_uploads B .shaderProgram .VBO .VAO s6)

theorem HelloTriangle.helloSetup_uploads (B : Backend) (sizeofFloatPtr uninit : Nat) (s : State) :
    Uploads s (HelloTriangle.mainSetup B sizeofFloatPtr uninit s)
      [sizeofFloatPtr, sizeofVertices] := by
  let s3 : State := HelloTriangle.generateVBO B sizeofFloatPtr s
  have h1 : Uploads s s3 [sizeofFloatPtr] := HelloTriangle.generateVBO_uploads B sizeofFloatPtr s
  let s4 : State :=
    (HelloTriangle.compileShader B uninit HelloTriangle.vertexShaderSource .vertexType s3).2.store
      .vertexShader
      (HelloTriangle.compileShader B uninit HelloTriangle.vertexShaderSource .vertexType s3).1
  have h2 : Uploads s s4 ([sizeofFloatPtr] ++ []) := by
    have e := HelloTriangle.compileShader_vertexType B uninit HelloTriangle.vertexShaderSource s3
    have := Uploads.store (Uploads.trans h1 (CompileEffect.uploads
      (Main.compileShader_effect B HelloTriangle.vertexShaderSource s3))) .vertexShader
      (Main.compileShader B HelloTriangle.vertexShaderSource s3).1
    rw [← e] at this
    exact this
  let s5 : State :=
    (HelloTriangle.compileShader B uninit HelloTriangle.fragShaderSource .fragType s4).2.store
      .fragShader
      (HelloTriangle.compileShader B uninit HelloTriangle.fragShaderSource .fragType s4).1
  have h3 : Uploads s s5 ([sizeofFloatPtr] ++ [] ++ []) := by
    have e := HelloTriangle.compileShader_fragType B uninit HelloTriangle.fragShaderSource s4
    have := Uploads.store (Uploads.trans h2 (CompileEffect.uploads
      (Main.compileFragShader_effect B HelloTriangle.fragShaderSource s4))) .fragShader
      (Main.compileFragShader B HelloTriangle.fragShaderSource s4).1
    rw [← e] at this
    exact this
  let s6 : State := (HelloTriangle.shaderProgramBuild B .vertexShader .fragShader s5).2.store
    .shaderProgram (HelloTriangle.shaderProgramBuild B .vertexShader .fragShader s5).1
  have h4 : Uploads s s6 ([sizeofFloatPtr] ++ [] ++ [] ++ []) :=
    Uploads.store (Uploads.trans h3
      (Main.shaderProgramBuild_uploads B .vertexShader .fragShader s5)) _ _
  exact Uploads.trans h4 (Main.linkVertexAttribute_uploads B .shaderProgram .VBO .VAO s6)

/-! ## Claim about buffer uploads -/

/-- C9, the defect: `generateVBO` of `helloTriangle.cpp` passes to
`glBufferData` the size of a pointer, `sizeof(float *)`, not the 36 bytes of
the triangle: with 8-byte pointers the setup of `helloTriangle.cpp` uploads 8
bytes and then 36.  The other uploads are as claimed: `linkVertexAttribute` of
both files and the upload in `main` of `main.cpp` pass
`sizeof(vertices) = 36 = 3 * 12`, where 12 is the stride given to
`glVertexAttribPointer` and 3 the vertex count given to `glDrawArrays`. -/
theorem generateVBO_uploads_pointer_size :
    (∀ (B : Backend) (sizeofFloatPtr : Nat) (s : State),
      uploadSizes (callsSince s (HelloTriangle.generateVBO B sizeofFloatPtr s))
        = [sizeofFloatPtr]) ∧
    (∀ (B : Backend) (sizeofFloatPtr uninit : Nat) (s : State),
      uploadSizes (callsSince s (HelloTriangle.mainSetup B sizeofFloatPtr uninit s))
        = [sizeofFloatPtr, 36]) ∧
    uploadSizes (callsSince State.initial
      (HelloTriangle.mainSetup acceptingBackend 8 0 State.initial)) = [8, 36] ∧
    (∀ (B : Backend) (s : State),
      uploadSizes (callsSince s (Main.mainSetup B s)) = [36, 36]) ∧
    (∀ (B : Backend) (shaderProgram VBO VAO : Loc) (s : State),
      uploadSizes (callsSince s (HelloTriangle.linkVertexAttribute B shaderProgram VBO VAO s))
        = [36] ∧
      uploadSizes (callsSince s (Main.linkVertexAttribute B shaderProgram VBO VAO s)) = [36] ∧
      Call.glVertexAttribPointer 0 3 12 0
        ∈ callsSince s (HelloTriangle.linkVertexAttribute B shaderProgram VBO VAO s) ∧
      Call.glVertexAttribPointer 0 3 12 0
        ∈ callsSince s (Main.linkVertexAttribute B shaderProgram VBO VAO s)) ∧
    sizeofVertices = 36 ∧ 36 = 3 * (3 * sizeofFloat) := by
  have hsz : sizeofVertices = 36 := by decide
  refine ⟨fun B p s => (HelloTriangle.generateVBO_uploads B p s).sizes, ?_, ?_, ?_, ?_, hsz,
    by decide⟩
  · intro B p u s
    rw [← hsz]; exact (HelloTriangle.helloSetup_uploads B p u s).sizes
  · rw [← hsz]; exact (HelloTriangle.helloSetup_uploads acceptingBackend 8 0 State.initial).sizes
  · intro B s
    rw [← hsz]; exact (Main.mainSetup_uploads B s).sizes
  · intro B sp vbo vao s
    have hu := (Main.linkVertexAttribute_uploads B sp vbo vao s).sizes
    obtain ⟨a, b, ht, -, -⟩ := Main.linkVertexAttribute_spec B sp vbo vao s
    have hm : Call.glVertexAttribPointer 0 3 12 0
        ∈ callsSince s (Main.linkVertexAttribute B sp vbo vao s) := by
      rw [callsSince_of_trace _ _ _ ht]
      simp [sizeofFloat]
    rw [hsz] at hu
    exact ⟨hu, hu, hm, hm⟩

end OpenGL
